import Mathlib

/-!
Shallow embedding of the QARA import/patch scripts
(`src/scripts/import_questions_from_excel.py`,
 `src/scripts/import_iso_questions_from_excel.py`,
 `src/scripts/patch_iso_risks_from_excel.py`,
 `src/scripts/patch_iso_risks_from_excel_v2.py`)
and proofs about their reconciliation, key-generation, dry-run and
retry behaviour.

Machine integers are modelled as `Nat` with explicit `% 2^32` where the
MD5 arithmetic overflows.  Strings are Lean `String`s; Python `str`
operations (`strip`, `lower`, `in`, `replace`) are given faithful
executable models below.
-/

namespace QARA

/-! ### Python string primitives -/

/-- The character set stripped by Python `str.strip()` / recognised by
`str.isspace` (ASCII whitespace, the C1 separators, NBSP and the common
Unicode space code points). -/
def isPyWhitespace (c : Char) : Bool :=
  let n := c.toNat
  (0x09 ≤ n && n ≤ 0x0d) || n = 0x20 || (0x1c ≤ n && n ≤ 0x1f) ||
  n = 0x85 || n = 0xa0 || n = 0x1680 || (0x2000 ≤ n && n ≤ 0x200a) ||
  n = 0x2028 || n = 0x2029 || n = 0x202f || n = 0x205f || n = 0x3000

/-- Python `s.strip()`: remove leading and trailing whitespace. -/
def pyStrip (s : String) : String :=
  ⟨((s.data.dropWhile isPyWhitespace).reverse.dropWhile isPyWhitespace).reverse⟩

/-- Python `str.lower` for the character ranges the scripts can meet:
ASCII letters and the Latin-1 uppercase block (À–Þ except ×). -/
def pyToLowerChar (c : Char) : Char :=
  let n := c.toNat
  if 0x41 ≤ n && n ≤ 0x5a then Char.ofNat (n + 0x20)
  else if (0xc0 ≤ n && n ≤ 0xd6) || (0xd8 ≤ n && n ≤ 0xde) then Char.ofNat (n + 0x20)
  else if n = 0x178 then Char.ofNat 0xff
  else c

/-- Python `s.lower()`. -/
def pyLower (s : String) : String := ⟨s.data.map pyToLowerChar⟩

/-- `needle` occurs in `hay` (helper for Python `in` on lists of chars). -/
def charsContain (hay needle : List Char) : Bool :=
  match hay with
  | [] => needle.isEmpty
  | c :: t => needle.isPrefixOf (c :: t) || charsContain t needle

/-- Python substring test `needle in hay`. -/
def pyContains (hay needle : String) : Bool :=
  charsContain hay.data needle.data

/-- Replacement loop of Python `s.replace(old, new)` for a non-empty
pattern: leftmost non-overlapping occurrences, fuelled by the input
length. -/
def replaceGo (old new : List Char) : Nat → List Char → List Char
  | _, [] => []
  | 0, cs => cs
  | fuel + 1, c :: t =>
    if !old.isEmpty && old.isPrefixOf (c :: t) then
      new ++ replaceGo old new fuel ((c :: t).drop old.length)
    else c :: replaceGo old new fuel t

/-- Python `s.replace(old, new)` (the scripts only use non-empty
patterns). -/
def pyReplace (s old new : String) : String :=
  ⟨replaceGo old.data new.data s.data.length s.data⟩

/-- Python slicing `s[:n]` (by code points). -/
def pyTake (s : String) (n : Nat) : String := ⟨s.data.take n⟩

/-- Python `s.startswith(p)`. -/
def pyStartsWith (s p : String) : Bool := p.data.isPrefixOf s.data

/-- Python `s.endswith(p)`. -/
def pyEndsWith (s p : String) : Bool := p.data.isSuffixOf s.data

/-- Collapse every run of whitespace into a single space
(Python `re.sub(r"\s+", " ", s)`): map each whitespace character to a
space, then drop a space whose right neighbour is also a space. -/
def collapseWs (s : String) : String :=
  ⟨(s.data.map fun c => if isPyWhitespace c then ' ' else c).foldr
    (fun c acc => if c = ' ' && acc.headD 'x' = ' ' then acc else c :: acc) []⟩

/-! ### MD5 (`hashlib.md5(...).hexdigest()`), RFC 1321 over byte lists -/

/-- UTF-8 encoding of one scalar value. -/
def utf8EncodeChar (c : Char) : List Nat :=
  let n := c.toNat
  if n < 0x80 then [n]
  else if n < 0x800 then
    [0xc0 ||| (n >>> 6), 0x80 ||| (n &&& 0x3f)]
  else if n < 0x10000 then
    [0xe0 ||| (n >>> 12), 0x80 ||| ((n >>> 6) &&& 0x3f), 0x80 ||| (n &&& 0x3f)]
  else
    [0xf0 ||| (n >>> 18), 0x80 ||| ((n >>> 12) &&& 0x3f),
     0x80 ||| ((n >>> 6) &&& 0x3f), 0x80 ||| (n &&& 0x3f)]

/-- Python `s.encode("utf-8")` as a list of byte values. -/
def utf8Bytes (s : String) : List Nat :=
  (s.data.map utf8EncodeChar).flatten

/-- The 64 per-round shift amounts of MD5. -/
def md5Shifts : List Nat :=
  [7, 12, 17, 22, 7, 12, 17, 22, 7, 12, 17, 22, 7, 12, 17, 22,
   5, 9, 14, 20, 5, 9, 14, 20, 5, 9, 14, 20, 5, 9, 14, 20,
   4, 11, 16, 23, 4, 11, 16, 23, 4, 11, 16, 23, 4, 11, 16, 23,
   6, 10, 15, 21, 6, 10, 15, 21, 6, 10, 15, 21, 6, 10, 15, 21]

/-- The 64 sine-derived constants of MD5. -/
def md5K : List Nat :=
  [0xd76aa478, 0xe8c7b756, 0x242070db, 0xc1bdceee,
   0xf57c0faf, 0x4787c62a, 0xa8304613, 0xfd469501,
   0x698098d8, 0x8b44f7af, 0xffff5bb1, 0x895cd7be,
   0x6b901122, 0xfd987193, 0xa679438e, 0x49b40821,
   0xf61e2562, 0xc040b340, 0x265e5a51, 0xe9b6c7aa,
   0xd62f105d, 0x02441453, 0xd8a1e681, 0xe7d3fbc8,
   0x21e1cde6, 0xc33707d6, 0xf4d50d87, 0x455a14ed,
   0xa9e3e905, 0xfcefa3f8, 0x676f02d9, 0x8d2a4c8a,
   0xfffa3942, 0x8771f681, 0x6d9d6122, 0xfde5380c,
   0xa4beea44, 0x4bdecfa9, 0xf6bb4b60, 0xbebfbc70,
   0x289b7ec6, 0xeaa127fa, 0xd4ef3085, 0x04881d05,
   0xd9d4d039, 0xe6db99e5, 0x1fa27cf8, 0xc4ac5665,
   0xf4292244, 0x432aff97, 0xab9423a7, 0xfc93a039,
   0x655b59c3, 0x8f0ccc92, 0xffeff47d, 0x85845dd1,
   0x6fa87e4f, 0xfe2ce6e0, 0xa3014314, 0x4e0811a1,
   0xf7537e82, 0xbd3af235, 0x2ad7d2bb, 0xeb86d391]

/-- 32-bit truncation. -/
def m32 (n : Nat) : Nat := n % 4294967296

/-- 32-bit left rotation. -/
def rotl32 (x c : Nat) : Nat :=
  m32 (x <<< c) ||| (x >>> (32 - c))

/-- 32-bit bitwise complement. -/
def not32 (x : Nat) : Nat := 4294967295 ^^^ x

/-- Little-endian bytes of a value, `k` bytes wide. -/
def leBytes (k n : Nat) : List Nat :=
  (List.range k).map fun i => (n >>> (8 * i)) &&& 0xff

/-- MD5 padding: append `0x80`, zero-fill to 56 mod 64, append the
original bit length as 8 little-endian bytes. -/
def md5Pad (msg : List Nat) : List Nat :=
  let len := msg.length
  let padLen := (56 + 64 - ((len + 1) % 64)) % 64
  msg ++ [0x80] ++ List.replicate padLen 0 ++ leBytes 8 ((len * 8) % (2 ^ 64))

/-- Read the sixteen little-endian 32-bit words of one 64-byte block. -/
def md5Words (block : List Nat) : List Nat :=
  (List.range 16).map fun j =>
    block.getD (4 * j) 0 + block.getD (4 * j + 1) 0 * 0x100 +
    block.getD (4 * j + 2) 0 * 0x10000 + block.getD (4 * j + 3) 0 * 0x1000000

/-- One MD5 round: mixes round index `i` into the state `(a, b, c, d)`
using the message words `M`. -/
def md5Round (M : List Nat) (st : Nat × Nat × Nat × Nat) (i : Nat) :
    Nat × Nat × Nat × Nat :=
  let (a, b, c, d) := st
  let (f, g) :=
    if i < 16 then ((b &&& c) ||| (not32 b &&& d), i)
    else if i < 32 then ((d &&& b) ||| (not32 d &&& c), (5 * i + 1) % 16)
    else if i < 48 then (b ^^^ c ^^^ d, (3 * i + 5) % 16)
    else (c ^^^ (b ||| not32 d), (7 * i) % 16)
  let f := m32 (f + a + md5K.getD i 0 + M.getD g 0)
  (d, m32 (b + rotl32 f (md5Shifts.getD i 0)), b, c)

/-- Process one 64-byte block into the running digest state. -/
def md5Block (st : Nat × Nat × Nat × Nat) (block : List Nat) :
    Nat × Nat × Nat × Nat :=
  let (a0, b0, c0, d0) := st
  let (a, b, c, d) := (List.range 64).foldl (md5Round (md5Words block)) (a0, b0, c0, d0)
  (m32 (a0 + a), m32 (b0 + b), m32 (c0 + c), m32 (d0 + d))

/-- MD5 digest of a byte list, as the 16 digest bytes. -/
def md5Bytes (msg : List Nat) : List Nat :=
  let padded := md5Pad msg
  let blocks := (List.range (padded.length / 64)).map fun i =>
    (padded.drop (64 * i)).take 64
  let (a, b, c, d) :=
    blocks.foldl md5Block (0x67452301, 0xefcdab89, 0x98badcfe, 0x10325476)
  leBytes 4 a ++ leBytes 4 b ++ leBytes 4 c ++ leBytes 4 d

/-- One lowercase hex digit. -/
def hexDigit (n : Nat) : Char :=
  if n < 10 then Char.ofNat (0x30 + n) else Char.ofNat (0x61 + n - 10)

/-- Lowercase hex string of a byte list. -/
def hexOfBytes (bs : List Nat) : String :=
  ⟨(bs.map fun b => [hexDigit (b / 16), hexDigit (b % 16)]).flatten⟩

/-- Python `hashlib.md5(s.encode("utf-8")).hexdigest()`. -/
def md5Hex (s : String) : String :=
  hexOfBytes (md5Bytes (utf8Bytes s))

/-! ### Shared helpers of the import scripts -/

/-- Python truthy `a or b` where `a` is an optional, possibly empty
string: `None` and `""` fall through to `b`. -/
def pyOrStr (a : Option String) (b : String) : String :=
  match a with
  | some s => if s = "" then b else s
  | none => b

/-- `norm_str` from `import_questions_from_excel.py`: strip, replace
NBSP by a space, strip again. -/
def norm_str (s : String) : String :=
  pyStrip (pyReplace (pyStrip s) " " " ")

/-- `gen_question_key` from `import_questions_from_excel.py`:
`"q_" + md5(f"{norm_str(article)}|{norm_str(process_name)}|{norm_str(question_text)}")`. -/
def gen_question_key (article process_name question_text : String) : String :=
  "q_" ++ md5Hex (norm_str article ++ "|" ++ norm_str process_name ++ "|" ++
    norm_str question_text)

/-- Identity-key computation of the ISO importer
(`import_iso_questions_from_excel.py`, main loop):
`"q_" + md5(f"{referential_id}|{article}|{process_id}|{question_text}")`. -/
def iso_import_question_key (referential_id : Int) (article : String)
    (process_id : Int) (question_text : String) : String :=
  "q_" ++ md5Hex (toString referential_id ++ "|" ++ article ++ "|" ++
    toString process_id ++ "|" ++ question_text)

/-- Identity-key recomputation of the patch script
(`patch_iso_risks_from_excel.py`, main loop):
`"q_" + md5(f"{referential_id}|{article}|{pid}|{question_text}")`. -/
def patch_question_key (referential_id : Int) (article : String)
    (pid : Int) (question_text : String) : String :=
  "q_" ++ md5Hex (toString referential_id ++ "|" ++ article ++ "|" ++
    toString pid ++ "|" ++ question_text)

/-- `pick_col` from `import_questions_from_excel.py`: first candidate
present in the column list. -/
def pick_col (cols : List String) (candidates : List String) : Option String :=
  candidates.find? fun c => cols.contains c

/-- `first_existing` from `import_iso_questions_from_excel.py`: first
candidate present in the introspected column set. -/
def first_existing (candidates : List String) (existing_columns : List String) :
    Option String :=
  candidates.find? fun c => existing_columns.contains c

/-- The inner `pick` closure of `normalize_to_enum`: first target
present in the lowercased domain, mapped back to the original-case
domain entry. -/
def enumPick (allowed allowed_l : List String) (targets : List String) :
    Option String :=
  targets.findSome? fun t =>
    if allowed_l.contains t then some (allowed.getD (allowed_l.indexOf t) "")
    else none

/-- `normalize_to_enum` from `import_questions_from_excel.py`.  The
keyword literals are copied verbatim from the source file (which stores
the French accent sequences in a doubly-encoded form). -/
def normalize_to_enum (value_raw : String) (allowed : List String)
    (fallback : Option String) : String :=
  if allowed.isEmpty then value_raw
  else
    let v := pyLower (norm_str value_raw)
    let allowed_l := allowed.map pyLower
    if allowed_l.contains v then allowed.getD (allowed_l.indexOf v) ""
    else if ["crit", "critical", "majeur", "major", "high", "Ã©lev", "eleve",
        "severe", "sÃ©vÃ¨re"].any (fun k => pyContains v k) then
      pyOrStr (enumPick allowed allowed_l ["critical", "high", "majeur", "major"])
        (pyOrStr fallback (allowed.getD 0 ""))
    else if ["moy", "medium", "moderate", "modÃ©rÃ©", "modere",
        "interm"].any (fun k => pyContains v k) then
      pyOrStr (enumPick allowed allowed_l ["medium", "moderate", "moyen"])
        (pyOrStr fallback (allowed.getD 0 ""))
    else if ["faible", "low", "minor", "mineur", "min"].any
        (fun k => pyContains v k) then
      pyOrStr (enumPick allowed allowed_l ["low", "minor", "faible", "mineur"])
        (pyOrStr fallback (allowed.getD 0 ""))
    else
      match (List.range allowed.length).findSome? (fun i =>
          let a := allowed_l.getD i ""
          if a ≠ "" && pyContains v a then some (allowed.getD i "") else none) with
      | some r => r
      | none =>
        match fallback with
        | some f =>
          if f ≠ "" && allowed_l.contains (pyLower f) then
            allowed.getD (allowed_l.indexOf (pyLower f)) ""
          else allowed.getD 0 ""
        | none => allowed.getD 0 ""

/-- Digit run of a Python `int()` literal: digits with single
underscores allowed between digits. -/
def pyParseDigits (acc : Nat) : List Char → Option Nat
  | [] => some acc
  | '_' :: c :: t =>
    if c.isDigit then pyParseDigits (acc * 10 + (c.toNat - 48)) t else none
  | ['_'] => none
  | c :: t =>
    if c.isDigit then pyParseDigits (acc * 10 + (c.toNat - 48)) t else none

/-- Python `int(s)` on an already-stripped string: optional sign,
then a non-empty digit run. -/
def pyParseInt (s : String) : Option Int :=
  let entry : List Char → Option Nat := fun cs =>
    match cs with
    | [] => none
    | c :: t => if c.isDigit then pyParseDigits (c.toNat - 48) t else none
  match s.data with
  | '+' :: rest => (entry rest).map Int.ofNat
  | '-' :: rest => (entry rest).map fun n => -(n : Int)
  | cs => (entry cs).map Int.ofNat

/-- `getenv_int` from `import_iso_questions_from_excel.py` (the
`patch_iso_risks_from_excel*.py` copies are identical up to logging):
missing/blank values and unparseable values fall back to the default. -/
def getenv_int (raw : Option String) (dflt : Int) : Int :=
  match raw with
  | none => dflt
  | some r =>
    if pyStrip r = "" then dflt
    else
      match pyParseInt (pyStrip r) with
      | some n => n
      | none => dflt

/-- The referential-id part of `get_required_env`
(`import_iso_questions_from_excel.py`): read
`DEFAULT_REFERENTIAL_ID` with default 2, abort unless the value is 2
or 3. -/
def get_required_env_referential (envRefRaw : Option String) : Except String Int :=
  let referential_id := getenv_int envRefRaw 2
  if referential_id = 2 || referential_id = 3 then Except.ok referential_id
  else Except.error "DEFAULT_REFERENTIAL_ID must be 2 (ISO9001) or 3 (ISO13485)"

/-- `normalize_header` from the ISO scripts: strip, lower, normalize
apostrophes and common accents, collapse whitespace runs. -/
def normalize_header (value : String) : String :=
  let v := pyLower (pyStrip value)
  let v := pyReplace (pyReplace (pyReplace (pyReplace (pyReplace (pyReplace
    (pyReplace (pyReplace (pyReplace v "’" "\x27") "\x60" "\x27")
    "é" "e") "è" "e") "ê" "e") "à" "a") "ù" "u") "î" "i") "ï" "i"
  collapseWs v

/-- `str_or_none` from the ISO scripts: `none` for NaN cells and for
values that are empty after stripping. -/
def str_or_none (v : Option String) : Option String :=
  match v with
  | none => none
  | some s =>
    let t := pyStrip s
    if t = "" then none else some t

/-- A source sheet row: ordered (header, cell) pairs; `none` models a
NaN cell. -/
abbrev SheetRow := List (String × Option String)

/-- The `normalized = {normalize_header(col): col for col in row.index}`
dictionary: later columns overwrite earlier ones, so look up the last
column with the given normalized header. -/
def headerLookup (row : SheetRow) (h : String) : Option (Option String) :=
  (row.reverse.find? fun p => normalize_header p.1 = h).map Prod.snd

/-- `resolve_sheet_value` from the ISO scripts: the first alias whose
normalized form is a header wins, and its (possibly empty) cell is
returned without trying further aliases. -/
def resolve_sheet_value (row : SheetRow) : List String → Option String
  | [] => none
  | a :: rest =>
    match headerLookup row (normalize_header a) with
    | some cell => str_or_none cell
    | none => resolve_sheet_value row rest

/-- `norm_criticality` from `import_iso_questions_from_excel.py`. -/
def norm_criticality (value : String) : String :=
  let val := pyLower (pyStrip value)
  (([("haute", "high"), ("elevee", "high"), ("élevee", "high"),
    ("élevée", "high"), ("high", "high"), ("moyenne", "medium"),
    ("medium", "medium"), ("faible", "low"), ("low", "low"),
    ("critique", "high")] : List (String × String)).lookup val).getD "medium"

/-- `normalize_question_text` from `patch_iso_risks_from_excel_v2.py`. -/
def normalize_question_text (s : String) : String :=
  let s := collapseWs (pyStrip s)
  pyReplace (pyReplace s "’" "\x27") "\x60" "\x27"

/-- Split a character list at every occurrence of one of the delimiter
characters, keeping empty segments (Python `re.split` on a character
class without `+`). -/
def splitOnDelims (delims : List Char) (cs : List Char) : List (List Char) :=
  cs.foldr (fun c acc =>
    match acc with
    | [] => [[c]]
    | cur :: rest =>
      if delims.contains c then [] :: cur :: rest else (c :: cur) :: rest) [[]]

/-- `split_list` from `import_iso_questions_from_excel.py`:
split on `[,;/|]`, keep stripped non-empty parts. -/
def split_list (value : Option String) : List String :=
  match value with
  | none => []
  | some v =>
    if v = "" then []
    else
      (splitOnDelims [',', ';', '/', '|'] v.data).filterMap fun part =>
        let p : String := ⟨part⟩
        if p ≠ "" && pyStrip p ≠ "" then some (pyStrip p) else none

/-- JSON escaping of one character (`json.dumps` with
`ensure_ascii=False`). -/
def jsonEscapeChar (c : Char) : List Char :=
  if c = '"' then ['\\', '"']
  else if c = '\\' then ['\\', '\\']
  else if c = '\n' then ['\\', 'n']
  else if c = '\t' then ['\\', 't']
  else if c = '\r' then ['\\', 'r']
  else if c.toNat = 8 then ['\\', 'b']
  else if c.toNat = 12 then ['\\', 'f']
  else if c.toNat < 0x20 then
    ['\\', 'u', '0', '0', hexDigit (c.toNat / 16), hexDigit (c.toNat % 16)]
  else [c]

/-- `json.dumps` of one string, `ensure_ascii=False`. -/
def json_dumps_str (s : String) : String :=
  ⟨'"' :: (s.data.map jsonEscapeChar).flatten ++ ['"']⟩

/-- `json.dumps` of a list of strings, `ensure_ascii=False` (default
separator `", "`). -/
def json_dumps_list (xs : List String) : String :=
  "[" ++ String.intercalate ", " (xs.map json_dumps_str) ++ "]"

/-- Hex digit value for `\u` escapes. -/
def hexVal (c : Char) : Option Nat :=
  let n := c.toNat
  if 48 ≤ n && n ≤ 57 then some (n - 48)
  else if 97 ≤ n && n ≤ 102 then some (n - 87)
  else if 65 ≤ n && n ≤ 70 then some (n - 55)
  else none

/-- JSON insignificant whitespace. -/
def skipWsJ (cs : List Char) : List Char :=
  cs.dropWhile fun c => c = ' ' || c = '\t' || c = '\n' || c = '\r'

/-- Parse the body of a JSON string (opening quote already consumed);
returns the decoded characters and the remainder after the closing
quote.  Fuel-indexed (fuel bounds the input length). -/
def parseJString (fuel : Nat) (cs : List Char) : Option (List Char × List Char) :=
  match fuel, cs with
  | 0, _ => none
  | _, [] => none
  | fuel + 1, c :: t =>
    if c = '"' then some ([], t)
    else if c = '\\' then
      match t with
      | [] => none
      | e :: t2 =>
        let esc : Option (Char × List Char) :=
          if e = '"' then some ('"', t2)
          else if e = '\\' then some ('\\', t2)
          else if e = '/' then some ('/', t2)
          else if e = 'b' then some (Char.ofNat 8, t2)
          else if e = 'f' then some (Char.ofNat 12, t2)
          else if e = 'n' then some ('\n', t2)
          else if e = 'r' then some ('\r', t2)
          else if e = 't' then some ('\t', t2)
          else if e = 'u' then
            match t2 with
            | h1 :: h2 :: h3 :: h4 :: t3 =>
              match hexVal h1, hexVal h2, hexVal h3, hexVal h4 with
              | some a, some b, some c2, some d =>
                some (Char.ofNat (((a * 16 + b) * 16 + c2) * 16 + d), t3)
              | _, _, _, _ => none
            | _ => none
          else none
        match esc with
        | some (ch, rest) =>
          (parseJString fuel rest).map fun p => (ch :: p.1, p.2)
        | none => none
    else (parseJString fuel t).map fun p => (c :: p.1, p.2)

/-- Parse the items of a JSON array of strings (opening bracket already
consumed).  Parsing fails on any other JSON shape, which models the
importer falling through to its regex-split branch for such values. -/
def parseJItems (fuel : Nat) (cs : List Char) (first : Bool) :
    Option (List String) :=
  match fuel with
  | 0 => none
  | fuel + 1 =>
    let cs := skipWsJ cs
    match cs with
    | [] => none
    | c :: t =>
      if c = ']' ∧ first then
        if (skipWsJ t).isEmpty then some [] else none
      else
        let cs2 := if first then cs else
          match cs with
          | ',' :: t2 => skipWsJ t2
          | _ => []
        match cs2 with
        | '"' :: t3 =>
          match parseJString cs2.length t3 with
          | some (body, rest) =>
            let rest := skipWsJ rest
            match rest with
            | ']' :: t4 =>
              if (skipWsJ t4).isEmpty then some [⟨body⟩] else none
            | ',' :: _ =>
              (parseJItems fuel rest false).map fun items => (⟨body⟩ : String) :: items
            | _ => none
          | none => none
        | _ => none

/-- Parse a JSON array of strings; `none` for any other input (numbers,
nested arrays, objects — the importer's `json.loads` branch only keeps
parsed lists, and the model scopes it to flat string arrays, the shape
`interviewFunctions` cells take). -/
def jsonParseStrArray (s : String) : Option (List String) :=
  match skipWsJ s.data with
  | '[' :: t => parseJItems (t.length + 1) t true
  | _ => none

/-- `safe_json_array` from `import_questions_from_excel.py` for string
cells: JSON re-serialization when the value parses as an array,
regex-split fallback otherwise. -/
def safe_json_array (v : String) : String :=
  let s := norm_str v
  if s = "" then "[]"
  else
    let tryParse :=
      if (pyStartsWith s "[" && pyEndsWith s "]") ||
          (pyStartsWith s "\x7b" && pyEndsWith s "\x7d") then
        jsonParseStrArray s
      else none
    match tryParse with
    | some parsed => json_dumps_list ((parsed.map norm_str).filter (· ≠ ""))
    | none =>
      json_dumps_list
        (((splitOnDelims [',', '\n', ';'] s.data).map fun p =>
          norm_str ⟨p⟩).filter (· ≠ ""))

/-- `slugify` from `import_iso_questions_from_excel.py`: lowercase,
replace runs outside `[a-zA-Z0-9]` by `-`, trim dashes. -/
def slugify (value : String) : String :=
  let mapped := (pyLower (pyStrip value)).data.map fun c =>
    if c.isAlpha || c.isDigit then c else '-'
  let collapsed := mapped.foldr
    (fun c acc => if c = '-' && acc.headD 'x' = '-' then acc else c :: acc) []
  ⟨((collapsed.dropWhile (· = '-')).reverse.dropWhile (· = '-')).reverse⟩

/-! ### MDR importer (`import_questions_from_excel.py`)

The store side is modelled explicitly: MySQL writes become constructors
of `MdrWrite`, `lastrowid` becomes the auto-increment counter
`processNextId`, and the two run counters `inserted`/`skipped` are the
script's counters.  `processesCreated` counts the `Processus créé`
creation events (logged by the script in both dry and live mode). -/

/-- A value bound to an SQL placeholder. -/
inductive Val where
  | str (s : String)
  | int (n : Int)
  | null
  deriving Repr, DecidableEq

/-- An `Option String` column value: `NULL` for `none`. -/
def optVal (o : Option String) : Val :=
  match o with
  | some s => Val.str s
  | none => Val.null

/-- Run configuration of the MDR importer: dry-run flag, env defaults,
introspected `questions` columns, detected ENUM domains, and whether
the process table has a created-at column. -/
structure MdrConfig where
  dryRun : Bool
  defaultReferentialId : Int
  defaultEconomicRole : String
  questionsCols : List String
  criticalityEnum : Option (List String)
  questiontypeEnum : Option (List String)
  processHasCreatedCol : Bool
  deriving Repr, DecidableEq

/-- Store writes the MDR importer can issue. -/
inductive MdrWrite where
  | deleteQuestions
  | insertProcess (name : String) (withCreatedAt : Bool)
  | insertQuestion (params : List Val)
  deriving Repr, DecidableEq

/-- Mutable run state of the MDR importer. -/
structure MdrState where
  processMap : List (String × Int)
  processNextId : Int
  writes : List MdrWrite
  inserted : Nat
  skipped : Nat
  processesCreated : Nat
  deriving Repr, DecidableEq

/-- Python truthiness of a detected ENUM domain (`if enum:`):
`None` and the empty list are falsy. -/
def pyTruthyList (o : Option (List String)) : Bool :=
  match o with
  | some l => !l.isEmpty
  | none => false

/-- `get_or_create_process_id`: normalized-name cache lookup, then
either a dry-run synthetic id (`max(values)+1`) or a live INSERT whose
`lastrowid` is the store's auto-increment counter.  The literal
`"Non dÃ©fini"` is copied verbatim from the source file (the file
stores `"Non défini"` doubly encoded). -/
def get_or_create_process_id (cfg : MdrConfig) (st : MdrState)
    (process_name : String) : Int × MdrState :=
  let pname := if norm_str process_name = "" then "Non dÃ©fini" else norm_str process_name
  let key := pyLower pname
  match st.processMap.lookup key with
  | some pid => (pid, st)
  | none =>
    if cfg.dryRun then
      let fake_id := ((st.processMap.map Prod.snd).max?.getD 0) + 1
      (fake_id, { st with
        processMap := (key, fake_id) :: st.processMap,
        processesCreated := st.processesCreated + 1 })
    else
      let new_id := st.processNextId
      (new_id, { st with
        processMap := (key, new_id) :: st.processMap,
        processNextId := st.processNextId + 1,
        writes := st.writes ++ [MdrWrite.insertProcess pname cfg.processHasCreatedCol],
        processesCreated := st.processesCreated + 1 })

/-- One source row of the MDR sheet (cells of the French headers the
script reads, all strings after `fillna("")`), plus its dataframe
index (`__row_index__`). -/
structure MdrRow where
  process : String
  objectif : String
  clause : String
  intitule : String
  qtext : String
  qtype : String
  risk : String
  evid : String
  funcs : String
  crit : String
  rowIndex : Nat
  deriving Repr, DecidableEq

/-- The stateless tail of the dynamically built INSERT parameter list:
every `add_col` extractor after `processId`, in source order
(`questionKey` … `displayOrder`; `createdAt` uses the literal `NOW()`
placeholder and contributes no parameter). -/
def mdr_rest_params (cfg : MdrConfig) (r : MdrRow) : List Val :=
  let qc := cfg.questionsCols
  (if qc.contains "questionKey" then
    [Val.str (pyTake (gen_question_key r.clause r.process r.qtext) 255)]
  else []) ++
  (if qc.contains "article" then
    [let a := pyTake (norm_str r.clause) 255
     if a = "" then Val.null else Val.str a]
  else []) ++
  (if qc.contains "title" then
    [let t := pyTake (norm_str r.intitule) 255
     if t = "" then Val.null else Val.str t]
  else []) ++
  (if qc.contains "questionText" then
    [let t := norm_str r.qtext
     if t = "" then Val.null else Val.str t]
  else []) ++
  (if qc.contains "questionType" then
    [let raw := norm_str r.qtype
     if pyTruthyList cfg.questiontypeEnum then
       Val.str (normalize_to_enum raw (cfg.questiontypeEnum.getD [])
         (some ((cfg.questiontypeEnum.getD []).getD 0 "")))
     else if raw = "" then Val.null else Val.str (pyTake raw 50)]
  else []) ++
  (if qc.contains "expectedEvidence" then
    [let t := norm_str r.evid
     if t = "" then Val.null else Val.str t]
  else []) ++
  (if qc.contains "criticality" then
    [let raw := norm_str r.crit
     if pyTruthyList cfg.criticalityEnum then
       Val.str (normalize_to_enum raw (cfg.criticalityEnum.getD [])
         (some ((cfg.criticalityEnum.getD []).getD 0 "")))
     else if raw = "" then Val.null else Val.str (pyTake raw 50)]
  else []) ++
  (if qc.contains "risk" then
    [let t := norm_str r.risk
     if t = "" then Val.null else Val.str t]
  else []) ++
  (if qc.contains "risks" then
    [let t := norm_str r.risk
     if t = "" then Val.null else Val.str t]
  else []) ++
  (if qc.contains "interviewFunctions" then [Val.str (safe_json_array r.funcs)]
  else []) ++
  (if qc.contains "applicableProcesses" then
    [Val.str (json_dumps_list [pyOrStr (some (norm_str r.process)) "Non dÃ©fini"])]
  else []) ++
  (if qc.contains "economicRole" then [Val.str cfg.defaultEconomicRole] else []) ++
  (if qc.contains "displayOrder" then [Val.int (Int.ofNat r.rowIndex + 1)] else [])

/-- Build the INSERT parameter list for one row (the `extractors`
loop): the optional `referentialId`, the stateful `processId`
resolution, then the stateless tail. -/
def mdr_build_params (cfg : MdrConfig) (st : MdrState) (r : MdrRow) :
    List Val × MdrState :=
  let refPart :=
    if cfg.questionsCols.contains "referentialId" then
      [Val.int cfg.defaultReferentialId]
    else []
  if cfg.questionsCols.contains "processId" then
    let (pid, st2) := get_or_create_process_id cfg st r.process
    (refPart ++ Val.int pid :: mdr_rest_params cfg r, st2)
  else (refPart ++ mdr_rest_params cfg r, st)

/-- One iteration of the MDR import loop: skip rows with an empty
question text, default an empty process name to `"Non dÃ©fini"`,
build the parameters (creating the process if needed), then count the
insert — writing it only outside dry-run. -/
def mdr_process_row (cfg : MdrConfig) (st : MdrState) (r : MdrRow) : MdrState :=
  let qtext := norm_str r.qtext
  if qtext = "" then { st with skipped := st.skipped + 1 }
  else
    let r := if norm_str r.process = "" then { r with process := "Non dÃ©fini" } else r
    let (params, st) := mdr_build_params cfg st r
    if cfg.dryRun then { st with inserted := st.inserted + 1 }
    else { st with
      writes := st.writes ++ [MdrWrite.insertQuestion params],
      inserted := st.inserted + 1 }

/-- Whole MDR run: preload the process cache from the store (later rows
overwrite earlier ones in the Python dict), purge the questions table
unless dry-run, then fold the per-row loop. -/
def mdr_run (cfg : MdrConfig) (processTable : List (Int × String))
    (processNextId : Int) (rows : List MdrRow) : MdrState :=
  let st0 : MdrState :=
    { processMap := (processTable.map fun p => (pyLower (norm_str p.2), p.1)).reverse,
      processNextId := processNextId,
      writes := if cfg.dryRun then [] else [MdrWrite.deleteQuestions],
      inserted := 0, skipped := 0, processesCreated := 0 }
  rows.foldl (mdr_process_row cfg) st0

/-! ### ISO importer (`import_iso_questions_from_excel.py`) -/

/-- The resolved `questions` columns of the ISO importer
(`resolve_questions_columns`): the six required ones are present by
construction, the rest are optional. -/
structure IsoCols where
  referential : String
  process : String
  article : String
  question_text : String
  question_key : String
  display_order : String
  title : Option String
  expected : Option String
  interview : Option String
  criticality : Option String
  risk : Option String
  question_type : Option String
  annexe : Option String
  economic_role : Option String
  applicable : Option String
  deriving Repr, DecidableEq

/-- Run configuration of the ISO importer. -/
structure IsoConfig where
  dryRun : Bool
  referentialId : Int
  cols : IsoCols
  /-- `q_meta[economic_role_col]["is_nullable"]` when the column exists. -/
  economicRoleIsNullable : Option String
  /-- `"slug" in process_columns`. -/
  processHasSlug : Bool
  deriving Repr, DecidableEq

/-- The store snapshot the ISO importer sees at startup. -/
structure IsoStore where
  /-- `referentials` table exists. -/
  refTableExists : Bool
  /-- ids present in `referentials`. -/
  referentialIds : List Int
  /-- columns of `referentials`. -/
  refCols : List String
  /-- (id, name) rows of the process table. -/
  processes : List (Int × String)
  /-- auto-increment counter of the process table. -/
  processNextId : Int
  deriving Repr, DecidableEq

/-- Store writes the ISO importer can issue. -/
inductive IsoWrite where
  | insertReferential (id : Int) (withName withCode withCreated withUpdated : Bool)
  | purgeQuestions (referentialId : Int)
  | insertProcess (name : String) (slug : Option String)
  | insertQuestion (vals : List (String × Val))
  deriving Repr, DecidableEq

/-- Mutable run state of the ISO importer. -/
structure IsoState where
  processMap : List (String × Int)
  processNextId : Int
  orders : List ((Int × String) × Nat)
  inserted : Nat
  skipped : Nat
  writes : List IsoWrite
  deriving Repr, DecidableEq

/-- `ensure_referential_exists`: abort when the `referentials` table is
missing, do nothing when the target id exists, log-only in dry-run,
otherwise insert the row (abort when no `id` column exists to satisfy
the FK). -/
def ensure_referential_exists (cfg : IsoConfig) (store : IsoStore) :
    Except String (List IsoWrite) :=
  if !store.refTableExists then
    Except.error "Table referentials introuvable (FK referentialId -> referentials.id)."
  else if store.referentialIds.contains cfg.referentialId then Except.ok []
  else
    let cols_lower := store.refCols.map pyLower
    if cfg.dryRun then Except.ok []
    else if !cols_lower.contains "id" then
      Except.error "Table referentials has no id column? Cannot satisfy FK."
    else
      Except.ok [IsoWrite.insertReferential cfg.referentialId
        (cols_lower.contains "name") (cols_lower.contains "code")
        (cols_lower.contains "createdat") (cols_lower.contains "updatedat")]

/-- The deterministic dry-run process id of `ensure_process_id`:
`int(md5(key)[:8], 16)`. -/
def md5DetId (key : String) : Int :=
  Int.ofNat ((pyTake (md5Hex key) 8).data.foldl
    (fun acc c => acc * 16 + (hexVal c).getD 0) 0)

/-- `ensure_process_id` of the ISO importer: cache lookup on the
stripped lowercased name, dry-run synthesizes an md5-derived id, live
mode inserts (with a slug when the schema has one) and uses
`lastrowid`. -/
def ensure_process_id (cfg : IsoConfig) (st : IsoState) (process_name : String) :
    Int × IsoState :=
  let key := pyLower (pyStrip process_name)
  match st.processMap.lookup key with
  | some pid => (pid, st)
  | none =>
    if cfg.dryRun then
      let deterministic := md5DetId key
      (deterministic, { st with processMap := (key, deterministic) :: st.processMap })
    else
      let w := IsoWrite.insertProcess process_name
        (if cfg.processHasSlug then some (slugify process_name) else none)
      let process_id := st.processNextId
      (process_id, { st with
        processMap := (key, process_id) :: st.processMap,
        processNextId := st.processNextId + 1,
        writes := st.writes ++ [w] })

/-- The `values` dictionary of one ISO insert, in source insertion
order. -/
def iso_values (cfg : IsoConfig) (process_id : Int) (article title
    question_text question_key : String) (display_order : Nat)
    (expected_evidence : Option String) (interview_functions : List String)
    (criticality : String) (risk : Option String) (question_type : String)
    (annexe : Option String) (process_name : String) : List (String × Val) :=
  let c := cfg.cols
  [(c.referential, Val.int cfg.referentialId),
   (c.process, Val.int process_id),
   (c.article, Val.str article),
   (c.question_text, Val.str question_text),
   (c.question_key, Val.str question_key),
   (c.display_order, Val.int (Int.ofNat display_order))] ++
  (match c.title with | some col => [(col, Val.str title)] | none => []) ++
  (match c.expected with | some col => [(col, optVal expected_evidence)] | none => []) ++
  (match c.interview with
   | some col => [(col, Val.str (json_dumps_list interview_functions))]
   | none => []) ++
  (match c.criticality with | some col => [(col, Val.str criticality)] | none => []) ++
  (match c.risk with | some col => [(col, optVal risk)] | none => []) ++
  (match c.question_type with | some col => [(col, Val.str question_type)] | none => []) ++
  (match c.annexe with | some col => [(col, optVal annexe)] | none => []) ++
  (match c.economic_role with
   | some col =>
     [(col, if cfg.economicRoleIsNullable = some "NO" then Val.str "N/A" else Val.null)]
   | none => []) ++
  (match c.applicable with
   | some col => [(col, Val.str (json_dumps_list [process_name]))]
   | none => [])

/-- One iteration of the ISO import loop. -/
def iso_process_row (cfg : IsoConfig) (st : IsoState) (row : SheetRow) : IsoState :=
  let process_name := resolve_sheet_value row ["Processus concerné", "Processus concerne"]
  let article := pyOrStr (resolve_sheet_value row ["Clause"]) "N/A"
  let title := pyOrStr (resolve_sheet_value row ["Intitulé", "Intitule"]) ""
  let question_text := pyOrStr (resolve_sheet_value row
    ["Question d’audit détaillée", "Question d'audit détaillée",
     "Question d audit detaillee"]) ""
  if pyOrStr process_name "" = "" || question_text = "" then
    { st with skipped := st.skipped + 1 }
  else
    let (process_id, st) := ensure_process_id cfg st (process_name.getD "")
    let expected_evidence := resolve_sheet_value row ["Preuves attendues"]
    let interview_functions := split_list
      (resolve_sheet_value row ["Fonctions interrogées", "Fonctions interrogees"])
    let criticality := norm_criticality
      (pyOrStr (resolve_sheet_value row ["Criticité", "Criticite"]) "")
    let risk := resolve_sheet_value row ["Risque"]
    let question_type := pyLower (pyStrip (pyOrStr (resolve_sheet_value row ["Type"]) "check"))
    let iso14971 := resolve_sheet_value row ["ISO14971"]
    let mdr := resolve_sheet_value row ["MDR"]
    let annexe :=
      let joined := String.intercalate " | " ([iso14971, mdr].filterMap id)
      if joined = "" then none else some joined
    let question_key := iso_import_question_key cfg.referentialId article
      process_id question_text
    let display_order := (st.orders.lookup (process_id, article)).getD 0 + 1
    let st := { st with orders := ((process_id, article), display_order) :: st.orders }
    let values := iso_values cfg process_id article title question_text
      question_key display_order expected_evidence interview_functions
      criticality risk question_type annexe (process_name.getD "")
    let st := { st with inserted := st.inserted + 1 }
    if cfg.dryRun then st
    else { st with writes := st.writes ++ [IsoWrite.insertQuestion values] }

/-- Whole ISO run: ensure the referential FK target, purge the
partition unless dry-run, then fold the per-row loop. -/
def iso_run (cfg : IsoConfig) (store : IsoStore) (rows : List SheetRow) :
    Except String IsoState :=
  match ensure_referential_exists cfg store with
  | Except.error e => Except.error e
  | Except.ok ws0 =>
    let ws1 := if cfg.dryRun then ws0 else
      ws0 ++ [IsoWrite.purgeQuestions cfg.referentialId]
    let st0 : IsoState :=
      { processMap := (store.processes.map fun p =>
          (pyLower (pyStrip p.2), p.1)).reverse,
        processNextId := store.processNextId,
        orders := [], inserted := 0, skipped := 0, writes := ws1 }
    Except.ok (rows.foldl (iso_process_row cfg) st0)

/-! ### Patch scripts (`patch_iso_risks_from_excel.py`, `_v2.py`) -/

/-- One persisted row of the `questions` table, restricted to the
columns the patch scripts read or write. -/
structure QRow where
  id : Int
  questionKey : String
  referentialId : Int
  code : Option String
  processId : Int
  article : String
  questionText : String
  risk : Option String
  risks : Option String
  expectedEvidence : Option String
  deriving Repr, DecidableEq

/-- `json_dump_or_none` from `patch_iso_risks_from_excel_v2.py`
(`patch_iso_risks_from_excel.py` inlines the same expression):
`json.dumps([risk]) if risk else None`. -/
def json_dump_or_none (risk : Option String) : Option String :=
  match risk with
  | some r => if r = "" then none else some (json_dumps_list [r])
  | none => none

/-- The positional SET parameters, in `set_parts` order
(risk, risks, expectedEvidence — whichever columns exist). -/
def set_params (hasRisk hasRisks hasExpected : Bool) (risk expected : Option String) :
    List Val :=
  (if hasRisk then [optVal risk] else []) ++
  (if hasRisks then [optVal (json_dump_or_none risk)] else []) ++
  (if hasExpected then [optVal expected] else [])

/-- Effect of the SET clause on one matched row. -/
def apply_set_parts (hasRisk hasRisks hasExpected : Bool)
    (risk expected : Option String) (q : QRow) : QRow :=
  let q := if hasRisk then { q with risk := risk } else q
  let q := if hasRisks then { q with risks := json_dump_or_none risk } else q
  if hasExpected then { q with expectedEvidence := expected } else q

/-- Whether the SET clause actually alters row `q`.  The patch scripts
read `cur.rowcount` after an UPDATE, and mysql-connector-python (which
does not set `CLIENT_FOUND_ROWS`) reports the number of rows
*changed*, not matched: a matched row whose columns already hold the
SET values does not count. -/
def set_changes (hasRisk hasRisks hasExpected : Bool)
    (risk expected : Option String) (q : QRow) : Bool :=
  !(apply_set_parts hasRisk hasRisks hasExpected risk expected q == q)

/-- `load_process_map` of the patch scripts: stripped lowercased name →
id, empty names skipped, later rows overwriting earlier ones. -/
def patch_load_process_map (processes : List (Int × String)) : List (String × Int) :=
  (processes.filterMap fun p =>
    let name := pyLower (pyStrip p.2)
    if name = "" then none else some (name, p.1)).reverse

/-- Run configuration of `patch_iso_risks_from_excel.py`. -/
structure PatchConfig where
  dryRun : Bool
  referentialId : Int
  hasRisk : Bool
  hasRisks : Bool
  hasExpected : Bool
  deriving Repr, DecidableEq

/-- The single UPDATE statement of `patch_iso_risks_from_excel.py`:
SET parameters plus the `questionKey`/`referentialId` WHERE values. -/
inductive PatchWrite where
  | updateByKey (params : List Val) (questionKey : String) (referentialId : Int)
  deriving Repr, DecidableEq

/-- Mutable run state of `patch_iso_risks_from_excel.py`: the questions
table contents plus the four counters. -/
structure PatchState where
  questions : List QRow
  updated : Nat
  skipped : Nat
  missing_process : Nat
  not_found : Nat
  writes : List PatchWrite
  deriving Repr, DecidableEq

/-- One iteration of the `patch_iso_risks_from_excel.py` loop: skip on
missing process/question text, resolve the process id, recompute the
identity key exactly like the importer, then — in dry-run — count an
update unconditionally, or — live — execute the UPDATE and count
`not_found` when `rowcount` (rows changed) is zero. -/
def patch_process_row (cfg : PatchConfig) (pm : List (String × Int))
    (st : PatchState) (row : SheetRow) : PatchState :=
  let process_name := resolve_sheet_value row ["Processus concerné", "Processus concerne"]
  let article := pyOrStr (resolve_sheet_value row ["Clause"]) "N/A"
  let question_text := resolve_sheet_value row
    ["Question d’audit détaillée", "Question d'audit détaillée",
     "Question d audit detaillee"]
  if pyOrStr process_name "" = "" || question_text.isNone then
    { st with skipped := st.skipped + 1 }
  else
    let pidOpt := pm.lookup (pyLower (pyStrip (pyOrStr process_name "")))
    if pidOpt.getD 0 = 0 then { st with missing_process := st.missing_process + 1 }
    else
      let pid := pidOpt.getD 0
      let risk := resolve_sheet_value row ["Risque", "Risques"]
      let expected := resolve_sheet_value row ["Preuves attendues"]
      let question_key := patch_question_key cfg.referentialId article pid
        (question_text.getD "")
      let params := set_params cfg.hasRisk cfg.hasRisks cfg.hasExpected risk expected
      if cfg.dryRun then { st with updated := st.updated + 1 }
      else
        let isMatch := fun q : QRow =>
          q.questionKey == question_key && q.referentialId == cfg.referentialId
        let rowcount := st.questions.countP fun q : QRow =>
          isMatch q && set_changes cfg.hasRisk cfg.hasRisks cfg.hasExpected
            risk expected q
        let st := { st with
          questions := st.questions.map fun q =>
            if isMatch q then
              apply_set_parts cfg.hasRisk cfg.hasRisks cfg.hasExpected risk expected q
            else q,
          writes := st.writes ++
            [PatchWrite.updateByKey params question_key cfg.referentialId] }
        if rowcount = 0 then { st with not_found := st.not_found + 1 }
        else { st with updated := st.updated + 1 }

/-- Whole `patch_iso_risks_from_excel.py` run: abort when no patchable
column exists, then fold the per-row loop over the sheet. -/
def patch_run (cfg : PatchConfig) (processes : List (Int × String))
    (questions : List QRow) (rows : List SheetRow) : Except String PatchState :=
  if !(cfg.hasRisk || cfg.hasRisks || cfg.hasExpected) then
    Except.error "Neither risk/risks/expectedEvidence columns exist to patch."
  else
    let pm := patch_load_process_map processes
    let st0 : PatchState :=
      { questions := questions, updated := 0, skipped := 0,
        missing_process := 0, not_found := 0, writes := [] }
    Except.ok (rows.foldl (patch_process_row cfg pm) st0)

/-- `get_cell` of `patch_iso_risks_from_excel_v2.py` is the same
resolver as `resolve_sheet_value`. -/
def get_cell (row : SheetRow) (aliases : List String) : Option String :=
  resolve_sheet_value row aliases

/-- Run configuration of `patch_iso_risks_from_excel_v2.py`:
which of the optional columns `detect_cols` found. -/
structure V2Config where
  dryRun : Bool
  referentialId : Int
  hasCode : Bool
  hasProcessId : Bool
  hasArticle : Bool
  hasQuestionText : Bool
  hasRisk : Bool
  hasRisks : Bool
  hasExpected : Bool
  deriving Repr, DecidableEq

/-- Store writes `patch_iso_risks_from_excel_v2.py` can issue. -/
inductive V2Write where
  | updateByCode (params : List Val) (referentialId : Int) (code : String)
  | updateById (params : List Val) (id : Int)
  deriving Repr, DecidableEq

/-- Mutable run state of `patch_iso_risks_from_excel_v2.py`. -/
structure V2State where
  questions : List QRow
  updated : Nat
  updated_by_code : Nat
  updated_by_fallback : Nat
  skipped : Nat
  missing_process : Nat
  not_found : Nat
  writes : List V2Write
  deriving Repr, DecidableEq

/-- Primary strategy of the v2 patch loop: UPDATE by
(referentialId, code) when a non-empty code cell is present.  Returns
the new state and the `did_update` flag — set only when the UPDATE
changed at least one row (`cur.rowcount > 0`), so a matched-but-
unchanged UPDATE falls through to the fallback. -/
def v2_try_code (cfg : V2Config) (st : V2State) (params_set : List Val)
    (risk expected : Option String) (codeVal : String) : V2State × Bool :=
  if cfg.hasCode && !(codeVal == "") then
    let isMatch := fun q : QRow =>
      q.referentialId == cfg.referentialId && q.code == some codeVal
    let rowcount := st.questions.countP fun q : QRow =>
      isMatch q && set_changes cfg.hasRisk cfg.hasRisks cfg.hasExpected
        risk expected q
    let st2 := { st with
      questions := st.questions.map fun q =>
        if isMatch q then
          apply_set_parts cfg.hasRisk cfg.hasRisks cfg.hasExpected risk expected q
        else q,
      writes := st.writes ++
        [V2Write.updateByCode params_set cfg.referentialId codeVal] }
    if rowcount > 0 then
      ({ st2 with
          updated := st2.updated + 1,
          updated_by_code := st2.updated_by_code + 1 }, true)
    else (st2, false)
  else (st, false)

/-- Fallback strategy of the v2 patch loop: `SELECT id … LIMIT 1` on
(referentialId, processId, article, normalized question text), then
UPDATE by the retrieved id; `not_found` when nothing qualifies or when
the UPDATE changes no row. -/
def v2_fallback (cfg : V2Config) (st : V2State) (params_set : List Val)
    (risk expected : Option String) (pid : Int) (article qt : String) : V2State :=
  if cfg.hasProcessId && cfg.hasArticle && cfg.hasQuestionText then
    match st.questions.find? (fun q =>
        q.referentialId == cfg.referentialId && q.processId == pid &&
        q.article == article && q.questionText == qt) with
    | some qrow =>
      if qrow.id == 0 then { st with not_found := st.not_found + 1 }
      else
        let rowcount := st.questions.countP fun q : QRow =>
          q.id == qrow.id && set_changes cfg.hasRisk cfg.hasRisks
            cfg.hasExpected risk expected q
        let st2 := { st with
          questions := st.questions.map fun q : QRow =>
            if q.id == qrow.id then
              apply_set_parts cfg.hasRisk cfg.hasRisks cfg.hasExpected
                risk expected q
            else q,
          writes := st.writes ++ [V2Write.updateById params_set qrow.id] }
        if rowcount > 0 then
          { st2 with
              updated := st2.updated + 1,
              updated_by_fallback := st2.updated_by_fallback + 1 }
        else { st2 with not_found := st2.not_found + 1 }
    | none => { st with not_found := st.not_found + 1 }
  else { st with not_found := st.not_found + 1 }

/-- One iteration of the v2 patch loop: skip/missing-process
validation, dry-run short cut, then the primary strategy followed by
the fallback. -/
def v2_process_row (cfg : V2Config) (pm : List (String × Int))
    (st : V2State) (row : SheetRow) : V2State :=
  let process_name := get_cell row ["Processus concerné", "Processus concerne"]
  let article := pyOrStr (get_cell row ["Clause"]) "N/A"
  let question_text := get_cell row
    ["Question d’audit détaillée", "Question d'audit détaillée"]
  let code := get_cell row ["code", "Code", "CODE"]
  if pyOrStr process_name "" = "" || question_text.isNone then
    { st with skipped := st.skipped + 1 }
  else
    let pidOpt := pm.lookup (pyLower (pyStrip (pyOrStr process_name "")))
    if pidOpt.getD 0 = 0 then { st with missing_process := st.missing_process + 1 }
    else
      let pid := pidOpt.getD 0
      let risk := get_cell row ["Risque", "Risques"]
      let expected := get_cell row ["Preuves attendues"]
      let params_set := set_params cfg.hasRisk cfg.hasRisks cfg.hasExpected risk expected
      if cfg.dryRun then { st with updated := st.updated + 1 }
      else
        let codeVal := pyOrStr code ""
        let primary := v2_try_code cfg st params_set risk expected codeVal
        if primary.2 then primary.1
        else v2_fallback cfg primary.1 params_set risk expected pid article
          (normalize_question_text (question_text.getD ""))

/-! ### `connect_with_retry` (`patch_iso_risks_from_excel_v2.py`) -/

/-- The retry loop of `connect_with_retry`, over an oracle saying
whether attempt `i` succeeds.  Returns (attempts made, sleeps
performed, connected?); `connected? = false` models the final
`SystemExit`. -/
def connect_with_retry_go (succ : Nat → Bool) (i : Nat) (fuel : Nat)
    (sleeps : List Nat) : Nat × List Nat × Bool :=
  match fuel with
  | 0 => (i - 1, sleeps, false)
  | fuel + 1 =>
    if succ i then (i, sleeps, true)
    else connect_with_retry_go succ (i + 1) fuel (sleeps ++ [2 * i])

/-- The default `retries` of `connect_with_retry` (the only call site
uses it). -/
def connect_retries : Nat := 6

/-- `connect_with_retry`: attempts `1 … retries`, sleeping `2*i`
seconds after failed attempt `i`, aborting after the last failure. -/
def connect_with_retry (succ : Nat → Bool) (retries : Nat) :
    Nat × List Nat × Bool :=
  connect_with_retry_go succ 1 retries []

/-! ### Helper lemmas -/

/-- Write-kind discriminator: primary (by-code) UPDATE. -/
def isUpdateByCode : V2Write → Bool
  | V2Write.updateByCode _ _ _ => true
  | _ => false

/-- Write-kind discriminator: fallback (by-id) UPDATE. -/
def isUpdateById : V2Write → Bool
  | V2Write.updateById _ _ => true
  | _ => false

/-- The primary strategy appends at most one by-code UPDATE. -/
theorem v2_try_code_writes_shape (cfg : V2Config) (st : V2State)
    (params_set : List Val) (risk expected : Option String) (codeVal : String) :
    (v2_try_code cfg st params_set risk expected codeVal).1.writes = st.writes ∨
    ∃ p c, (v2_try_code cfg st params_set risk expected codeVal).1.writes =
      st.writes ++ [V2Write.updateByCode p cfg.referentialId c] := by
  unfold v2_try_code
  dsimp only
  split
  · split
    · right; exact ⟨params_set, codeVal, rfl⟩
    · right; exact ⟨params_set, codeVal, rfl⟩
  · left; rfl

/-- The fallback strategy appends at most one by-id UPDATE. -/
theorem v2_fallback_writes_shape (cfg : V2Config) (st : V2State)
    (params_set : List Val) (risk expected : Option String) (pid : Int)
    (article qt : String) :
    (v2_fallback cfg st params_set risk expected pid article qt).writes = st.writes ∨
    ∃ p i, (v2_fallback cfg st params_set risk expected pid article qt).writes =
      st.writes ++ [V2Write.updateById p i] := by
  unfold v2_fallback
  dsimp only
  split
  · split
    · split
      · left; rfl
      · split
        · right; exact ⟨params_set, _, rfl⟩
        · right; exact ⟨params_set, _, rfl⟩
    · left; rfl
  · left; rfl

/-- Attempt count of the retry loop is bounded by the fuel. -/
theorem connect_go_attempts (succ : Nat → Bool) :
    ∀ (fuel i : Nat) (sleeps : List Nat),
      (connect_with_retry_go succ i fuel sleeps).1 ≤ i - 1 + fuel := by
  intro fuel
  induction fuel with
  | zero => intro i sleeps; simp [connect_with_retry_go]
  | succ fuel ih =>
    intro i sleeps
    unfold connect_with_retry_go
    split
    · omega
    · have := ih (i + 1) (sleeps ++ [2 * i])
      omega

/-- Sleeps of the retry loop stay strictly increasing. -/
theorem connect_go_pairwise (succ : Nat → Bool) :
    ∀ (fuel i : Nat) (sleeps : List Nat),
      List.Pairwise (· < ·) sleeps → (∀ x ∈ sleeps, x < 2 * i) →
      List.Pairwise (· < ·) (connect_with_retry_go succ i fuel sleeps).2.1 := by
  intro fuel
  induction fuel with
  | zero => intro i sleeps h1 _; exact h1
  | succ fuel ih =>
    intro i sleeps h1 h2
    unfold connect_with_retry_go
    split
    · exact h1
    · apply ih (i + 1)
      · rw [List.pairwise_append]
        refine ⟨h1, List.pairwise_singleton _ _, ?_⟩
        intro a ha b hb
        simp only [List.mem_singleton] at hb
        subst hb
        exact h2 a ha
      · intro x hx
        simp only [List.mem_append, List.mem_singleton] at hx
        rcases hx with hx | hx
        · have := h2 x hx; omega
        · omega

/-- `get_or_create_process_id` never touches the skipped counter. -/
theorem get_or_create_skipped (cfg : MdrConfig) (st : MdrState) (p : String) :
    ((get_or_create_process_id cfg st p).2).skipped = st.skipped := by
  unfold get_or_create_process_id
  dsimp only
  repeat' split
  all_goals rfl

/-- `get_or_create_process_id` never touches the inserted counter. -/
theorem get_or_create_inserted (cfg : MdrConfig) (st : MdrState) (p : String) :
    ((get_or_create_process_id cfg st p).2).inserted = st.inserted := by
  unfold get_or_create_process_id
  dsimp only
  repeat' split
  all_goals rfl

/-- Parameter building never touches the skipped counter. -/
theorem mdr_build_params_skipped (cfg : MdrConfig) (st : MdrState) (r : MdrRow) :
    ((mdr_build_params cfg st r).2).skipped = st.skipped := by
  unfold mdr_build_params
  dsimp only
  split
  · exact get_or_create_skipped cfg st r.process
  · rfl

/-- Parameter building never touches the inserted counter. -/
theorem mdr_build_params_inserted (cfg : MdrConfig) (st : MdrState) (r : MdrRow) :
    ((mdr_build_params cfg st r).2).inserted = st.inserted := by
  unfold mdr_build_params
  dsimp only
  split
  · exact get_or_create_inserted cfg st r.process
  · rfl

/-! ### Claims -/

/-- C1: the identity key is a deterministic function of its
discriminants — `q_` followed by the MD5 hex digest of
`referentialId|article|processId|questionText` — so computing it twice
gives the same key; and the patch script's key recomputation is the
same function as the ISO importer's key computation. -/
theorem c1_identity_key_deterministic_and_shared :
    (∀ (referentialId : Int) (article : String) (processId : Int)
        (questionText : String),
      iso_import_question_key referentialId article processId questionText =
        iso_import_question_key referentialId article processId questionText) ∧
    (∀ (referentialId : Int) (article : String) (pid : Int)
        (questionText : String),
      patch_question_key referentialId article pid questionText =
        iso_import_question_key referentialId article pid questionText) :=
  ⟨fun _ _ _ _ => rfl, fun _ _ _ _ => rfl⟩

/-- C6: column resolution returns the first alias present in the
column set (earlier aliases win), `none` when no candidate is present,
and the ISO variant `first_existing` is the same resolver. -/
theorem c6_alias_precedence :
    (∀ (cols l1 l2 : List String) (a : String),
      (∀ b ∈ l1, b ∉ cols) → a ∈ cols →
      pick_col cols (l1 ++ a :: l2) = some a) ∧
    (∀ (cols cands : List String),
      (∀ c ∈ cands, c ∉ cols) → pick_col cols cands = none) ∧
    (∀ (cands cols : List String), first_existing cands cols = pick_col cols cands) := by
  refine ⟨?_, ?_, fun _ _ => rfl⟩
  · intro cols l1 l2 a h1 h2
    unfold pick_col
    induction l1 with
    | nil => simp [List.find?_cons, h2]
    | cons b t ih =>
      have hb : cols.contains b = false := by
        simpa using h1 b (by simp)
      simp only [List.cons_append, List.find?_cons, hb]
      exact ih fun x hx => h1 x (by simp [hx])
  · intro cols cands h
    unfold pick_col
    rw [List.find?_eq_none]
    intro c hc
    simpa using h c hc

/-- C6 witness: with both `createdAt` (earlier) and `created_at`
(later) present, the earlier alias wins; with no candidate present the
resolver returns `none`. -/
theorem c6_alias_precedence_witness :
    (∀ b ∈ (["id"] : List String), b ∉ (["createdAt", "created_at", "name"] : List String)) ∧
    "createdAt" ∈ (["createdAt", "created_at", "name"] : List String) ∧
    pick_col ["createdAt", "created_at", "name"] (["id"] ++ "createdAt" :: ["created_at"]) =
      some "createdAt" ∧
    pick_col ["id", "name"] ["createdAt", "created_at"] = none :=
  ⟨by decide, by decide,
   c6_alias_precedence.1 _ _ _ _ (by decide) (by decide),
   c6_alias_precedence.2.1 _ _ (by decide)⟩

/-- C10: a non-empty `DEFAULT_REFERENTIAL_ID` that does not parse as an
integer makes `getenv_int` fall back to the default 2 (no exception),
so the ISO importer proceeds targeting referential 2; only a parseable
integer outside {2, 3} aborts the run. -/
theorem c10_getenv_int_fallback :
    (∀ s : String, pyStrip s ≠ "" → pyParseInt (pyStrip s) = none →
      getenv_int (some s) 2 = 2 ∧
      get_required_env_referential (some s) = Except.ok 2) ∧
    (∀ (s : String) (n : Int), pyStrip s ≠ "" → pyParseInt (pyStrip s) = some n →
      n ≠ 2 → n ≠ 3 →
      get_required_env_referential (some s) =
        Except.error "DEFAULT_REFERENTIAL_ID must be 2 (ISO9001) or 3 (ISO13485)") := by
  constructor
  · intro s h1 h2
    have hg : getenv_int (some s) 2 = 2 := by
      simp [getenv_int, h1, h2]
    exact ⟨hg, by simp [get_required_env_referential, hg]⟩
  · intro s n h1 h2 h3 h4
    have hg : getenv_int (some s) 2 = n := by
      simp [getenv_int, h1, h2]
    simp [get_required_env_referential, hg, h3, h4]

/-- C10 witness: `DEFAULT_REFERENTIAL_ID="abc"` silently becomes 2 and
the run proceeds; `DEFAULT_REFERENTIAL_ID="5"` aborts. -/
theorem c10_getenv_int_fallback_witness :
    pyStrip "abc" ≠ "" ∧ pyParseInt (pyStrip "abc") = none ∧
    (getenv_int (some "abc") 2 = 2 ∧
      get_required_env_referential (some "abc") = Except.ok 2) ∧
    get_required_env_referential (some "5") =
      Except.error "DEFAULT_REFERENTIAL_ID must be 2 (ISO9001) or 3 (ISO13485)" :=
  ⟨by decide, by decide,
   c10_getenv_int_fallback.1 "abc" (by decide) (by decide),
   c10_getenv_int_fallback.2 "5" 5 (by decide) (by decide) (by decide) (by decide)⟩

/-- C8: the store connection is attempted at most 6 times, the backoff
between attempts is strictly increasing (2s, 4s, …, 12s on the all-fail
run, which ends in a fatal abort), and a single row of the v2 patch
loop never issues the same UPDATE kind twice (no per-row retry). -/
theorem c8_bounded_retry_only_at_connect :
    (∀ succ : Nat → Bool,
      (connect_with_retry succ connect_retries).1 ≤ 6) ∧
    (∀ succ : Nat → Bool,
      List.Pairwise (· < ·) (connect_with_retry succ connect_retries).2.1) ∧
    connect_with_retry (fun _ => false) connect_retries =
      (6, [2, 4, 6, 8, 10, 12], false) ∧
    (∀ (cfg : V2Config) (pm : List (String × Int)) (st : V2State) (row : SheetRow),
      (v2_process_row cfg pm st row).writes.countP isUpdateByCode ≤
        st.writes.countP isUpdateByCode + 1 ∧
      (v2_process_row cfg pm st row).writes.countP isUpdateById ≤
        st.writes.countP isUpdateById + 1) := by
  refine ⟨?_, ?_, by decide, ?_⟩
  · intro succ
    have := connect_go_attempts succ connect_retries 1 []
    simpa [connect_with_retry, connect_retries] using this
  · intro succ
    exact connect_go_pairwise succ connect_retries 1 [] (List.Pairwise.nil) (by simp)
  · intro cfg pm st row
    unfold v2_process_row
    dsimp only
    split
    · exact ⟨Nat.le_succ _, Nat.le_succ _⟩
    split
    · exact ⟨Nat.le_succ _, Nat.le_succ _⟩
    split
    · exact ⟨Nat.le_succ _, Nat.le_succ _⟩
    split
    · rcases v2_try_code_writes_shape cfg st
          (set_params cfg.hasRisk cfg.hasRisks cfg.hasExpected
            (get_cell row ["Risque", "Risques"])
            (get_cell row ["Preuves attendues"]))
          (get_cell row ["Risque", "Risques"])
          (get_cell row ["Preuves attendues"])
          (pyOrStr (get_cell row ["code", "Code", "CODE"]) "") with h | ⟨p, c, h⟩ <;>
        rw [h] <;>
        simp [List.countP_append, List.countP_cons, isUpdateByCode, isUpdateById]
    · rcases v2_fallback_writes_shape cfg
          (v2_try_code cfg st
            (set_params cfg.hasRisk cfg.hasRisks cfg.hasExpected
              (get_cell row ["Risque", "Risques"])
              (get_cell row ["Preuves attendues"]))
            (get_cell row ["Risque", "Risques"])
            (get_cell row ["Preuves attendues"])
            (pyOrStr (get_cell row ["code", "Code", "CODE"]) "")).1
          (set_params cfg.hasRisk cfg.hasRisks cfg.hasExpected
            (get_cell row ["Risque", "Risques"])
            (get_cell row ["Preuves attendues"]))
          (get_cell row ["Risque", "Risques"])
          (get_cell row ["Preuves attendues"])
          ((pm.lookup (pyLower (pyStrip (pyOrStr
            (get_cell row ["Processus concerné", "Processus concerne"]) "")))).getD 0)
          (pyOrStr (get_cell row ["Clause"]) "N/A")
          (normalize_question_text
            ((get_cell row
              ["Question d’audit détaillée", "Question d'audit détaillée"]).getD ""))
          with h2 | ⟨p2, i2, h2⟩ <;>
      rcases v2_try_code_writes_shape cfg st
          (set_params cfg.hasRisk cfg.hasRisks cfg.hasExpected
            (get_cell row ["Risque", "Risques"])
            (get_cell row ["Preuves attendues"]))
          (get_cell row ["Risque", "Risques"])
          (get_cell row ["Preuves attendues"])
          (pyOrStr (get_cell row ["code", "Code", "CODE"]) "") with h1 | ⟨p1, c1, h1⟩ <;>
        rw [h2, h1] <;>
        simp [List.countP_append, List.countP_cons, isUpdateByCode, isUpdateById]

/-- C5: a row whose required question-text field is empty or
whitespace-only is skipped by all three import/patch loops in every
mode: only the skip counter changes, and no store write is issued for
the row. -/
theorem c5_empty_text_always_skipped :
    (∀ (cfg : MdrConfig) (st : MdrState) (r : MdrRow),
      norm_str r.qtext = "" →
      mdr_process_row cfg st r = { st with skipped := st.skipped + 1 }) ∧
    (∀ (cfg : IsoConfig) (st : IsoState) (row : SheetRow),
      pyOrStr (resolve_sheet_value row
        ["Question d’audit détaillée", "Question d'audit détaillée",
         "Question d audit detaillee"]) "" = "" →
      iso_process_row cfg st row = { st with skipped := st.skipped + 1 }) ∧
    (∀ (cfg : PatchConfig) (pm : List (String × Int)) (st : PatchState)
        (row : SheetRow),
      resolve_sheet_value row
        ["Question d’audit détaillée", "Question d'audit détaillée",
         "Question d audit detaillee"] = none →
      patch_process_row cfg pm st row = { st with skipped := st.skipped + 1 }) := by
  refine ⟨?_, ?_, ?_⟩
  · intro cfg st r h
    simp [mdr_process_row, h]
  · intro cfg st row h
    simp [iso_process_row, h]
  · intro cfg pm st row h
    simp [patch_process_row, h]

/-- MDR fixture for the C5 witness. -/
def c5MdrCfg : MdrConfig :=
  { dryRun := false, defaultReferentialId := 1, defaultEconomicRole := "all",
    questionsCols := ["processId", "questionText"], criticalityEnum := none,
    questiontypeEnum := none, processHasCreatedCol := false }

/-- MDR state fixture for the C5 witness. -/
def c5MdrSt : MdrState :=
  { processMap := [], processNextId := 1, writes := [], inserted := 0,
    skipped := 0, processesCreated := 0 }

/-- An MDR row with a whitespace-only question text. -/
def c5MdrRow : MdrRow :=
  { process := "P", objectif := "", clause := "4.1", intitule := "",
    qtext := "   ", qtype := "", risk := "", evid := "", funcs := "",
    crit := "", rowIndex := 0 }

/-- Resolved-column fixture for the C5 witness. -/
def c5IsoCols : IsoCols :=
  { referential := "referentialId", process := "processId",
    article := "article", question_text := "questionText",
    question_key := "questionKey", display_order := "displayOrder",
    title := none, expected := none, interview := none, criticality := none,
    risk := none, question_type := none, annexe := none,
    economic_role := none, applicable := none }

/-- ISO fixture for the C5 witness. -/
def c5IsoCfg : IsoConfig :=
  { dryRun := false, referentialId := 2, cols := c5IsoCols,
    economicRoleIsNullable := none, processHasSlug := false }

/-- ISO state fixture for the C5 witness. -/
def c5IsoSt : IsoState :=
  { processMap := [], processNextId := 1, orders := [], inserted := 0,
    skipped := 0, writes := [] }

/-- A sheet row whose question-text cell is whitespace-only. -/
def c5SheetRow : SheetRow :=
  [("Processus concerné", some "P"), ("Clause", some "4.1"),
   ("Question d’audit détaillée", some "   ")]

/-- Patch fixture for the C5 witness. -/
def c5PatchCfg : PatchConfig :=
  { dryRun := false, referentialId := 2, hasRisk := true, hasRisks := false,
    hasExpected := false }

/-- Patch state fixture for the C5 witness. -/
def c5PatchSt : PatchState :=
  { questions := [], updated := 0, skipped := 0, missing_process := 0,
    not_found := 0, writes := [] }

/-- C5 witness: a whitespace-only question text is skipped by each of
the three loops. -/
theorem c5_empty_text_always_skipped_witness :
    norm_str c5MdrRow.qtext = "" ∧
    mdr_process_row c5MdrCfg c5MdrSt c5MdrRow =
      { c5MdrSt with skipped := c5MdrSt.skipped + 1 } ∧
    iso_process_row c5IsoCfg c5IsoSt c5SheetRow =
      { c5IsoSt with skipped := c5IsoSt.skipped + 1 } ∧
    patch_process_row c5PatchCfg [] c5PatchSt c5SheetRow =
      { c5PatchSt with skipped := c5PatchSt.skipped + 1 } :=
  ⟨by decide,
   c5_empty_text_always_skipped.1 c5MdrCfg c5MdrSt c5MdrRow (by decide),
   c5_empty_text_always_skipped.2.1 c5IsoCfg c5IsoSt c5SheetRow (by decide),
   c5_empty_text_always_skipped.2.2 c5PatchCfg [] c5PatchSt c5SheetRow (by decide)⟩

/-- C9: in the MDR importer, a row with non-empty question text and a
blank process name is not skipped: the loop behaves as if the process
name were the source literal `"Non dÃ©fini"` ("Non défini" as stored
in the file), a lookup entity under that normalized name is resolved
or created and bound to the returned id, the row's parameter list
carries that id as the `processId` foreign key, and the insert counter
advances. -/
theorem c9_blank_process_name_defaults (cfg : MdrConfig) (st : MdrState)
    (r : MdrRow) (hq : ¬(norm_str r.qtext = ""))
    (hp : norm_str r.process = "")
    (hcol : cfg.questionsCols.contains "processId" = true) :
    mdr_process_row cfg st r =
      mdr_process_row cfg st { r with process := "Non dÃ©fini" } ∧
    (mdr_process_row cfg st r).skipped = st.skipped ∧
    (mdr_process_row cfg st r).inserted = st.inserted + 1 ∧
    (mdr_build_params cfg st { r with process := "Non dÃ©fini" }).1 =
      (if cfg.questionsCols.contains "referentialId" then
        [Val.int cfg.defaultReferentialId] else []) ++
      Val.int (get_or_create_process_id cfg st "Non dÃ©fini").1 ::
        mdr_rest_params cfg { r with process := "Non dÃ©fini" } ∧
    (get_or_create_process_id cfg st "Non dÃ©fini").2.processMap.lookup
      "non dã©fini" = some (get_or_create_process_id cfg st "Non dÃ©fini").1 := by
  refine ⟨?_, ?_, ?_, ?_, ?_⟩
  · unfold mdr_process_row
    have h3 : norm_str "Non dÃ©fini" = "Non dÃ©fini" := by decide
    simp only [hp, h3]
    norm_num
  · unfold mdr_process_row
    simp only [if_neg hq]
    rcases hbp : mdr_build_params cfg st
        (if norm_str r.process = "" then { r with process := "Non dÃ©fini" }
         else r) with ⟨params, st2⟩
    have h1 := mdr_build_params_skipped cfg st
      (if norm_str r.process = "" then { r with process := "Non dÃ©fini" } else r)
    rw [hbp] at h1
    dsimp only at h1
    split <;> simp [h1]
  · unfold mdr_process_row
    simp only [if_neg hq]
    rcases hbp : mdr_build_params cfg st
        (if norm_str r.process = "" then { r with process := "Non dÃ©fini" }
         else r) with ⟨params, st2⟩
    have h2 := mdr_build_params_inserted cfg st
      (if norm_str r.process = "" then { r with process := "Non dÃ©fini" } else r)
    rw [hbp] at h2
    dsimp only at h2
    split <;> simp [h2]
  · unfold mdr_build_params
    rcases hg : get_or_create_process_id cfg st
        ({ r with process := "Non dÃ©fini" } : MdrRow).process with ⟨pid, st2⟩
    have hcol2 : "processId" ∈ cfg.questionsCols := by simpa using hcol
    have hg2 : get_or_create_process_id cfg st "Non dÃ©fini" = (pid, st2) := hg
    simp [hcol2, hg, hg2]
  · unfold get_or_create_process_id
    dsimp only
    have hkey : pyLower (if norm_str "Non dÃ©fini" = "" then "Non dÃ©fini"
        else norm_str "Non dÃ©fini") = "non dã©fini" := by decide
    rw [hkey]
    rcases hl : st.processMap.lookup "non dã©fini" with _ | pid
    · dsimp only
      split <;> simp [List.lookup]
    · exact hl

/-- MDR configuration fixture for the C9 witness. -/
def c9Cfg : MdrConfig :=
  { dryRun := false, defaultReferentialId := 1, defaultEconomicRole := "all",
    questionsCols := ["referentialId", "processId", "questionKey", "article",
      "questionText", "criticality", "displayOrder", "createdAt"],
    criticalityEnum := none, questiontypeEnum := none,
    processHasCreatedCol := true }

/-- MDR state fixture for the C9 witness. -/
def c9St : MdrState :=
  { processMap := [], processNextId := 1, writes := [], inserted := 0,
    skipped := 0, processesCreated := 0 }

/-- An MDR row with a blank process name and a non-empty question. -/
def c9Row : MdrRow :=
  { process := "  ", objectif := "", clause := "4.1", intitule := "",
    qtext := "Do X?", qtype := "", risk := "", evid := "", funcs := "",
    crit := "", rowIndex := 0 }

/-- C9 witness: the blank-process row is imported, not skipped, and the
created lookup entity's id is cached under the normalized default
name. -/
theorem c9_blank_process_name_defaults_witness :
    ¬(norm_str c9Row.qtext = "") ∧ norm_str c9Row.process = "" ∧
    c9Cfg.questionsCols.contains "processId" = true ∧
    (mdr_process_row c9Cfg c9St c9Row).inserted = c9St.inserted + 1 ∧
    (get_or_create_process_id c9Cfg c9St "Non dÃ©fini").2.processMap.lookup
      "non dã©fini" =
      some (get_or_create_process_id c9Cfg c9St "Non dÃ©fini").1 :=
  ⟨by decide, by decide, by decide,
   (c9_blank_process_name_defaults c9Cfg c9St c9Row (by decide) (by decide)
     (by decide)).2.2.1,
   (c9_blank_process_name_defaults c9Cfg c9St c9Row (by decide) (by decide)
     (by decide)).2.2.2.2⟩

/-- Stage 1 of the categorical-normalization chain: exact
case-insensitive match against the domain. -/
def enum_exact_stage (allowed allowed_l : List String) (v : String) :
    Option String :=
  if allowed_l.contains v then some (allowed.getD (allowed_l.indexOf v) "")
  else none

/-- Stage 2 as the claim reads it: keyword-family matching that
produces a value only when a family synonym of the raw value maps to a
domain entry. -/
def enum_family_stage (allowed allowed_l : List String) (v : String) :
    Option String :=
  if ["crit", "critical", "majeur", "major", "high", "Ã©lev", "eleve",
      "severe", "sÃ©vÃ¨re"].any (fun k => pyContains v k) then
    enumPick allowed allowed_l ["critical", "high", "majeur", "major"]
  else if ["moy", "medium", "moderate", "modÃ©rÃ©", "modere",
      "interm"].any (fun k => pyContains v k) then
    enumPick allowed allowed_l ["medium", "moderate", "moyen"]
  else if ["faible", "low", "minor", "mineur", "min"].any
      (fun k => pyContains v k) then
    enumPick allowed allowed_l ["low", "minor", "faible", "mineur"]
  else none

/-- Stage 3: substring containment of a domain entry in the value. -/
def enum_substring_stage (allowed allowed_l : List String) (v : String) :
    Option String :=
  (List.range allowed.length).findSome? fun i =>
    let a := allowed_l.getD i ""
    if a ≠ "" && pyContains v a then some (allowed.getD i "") else none

/-- Spec-side definition following C7's words (used only for comparison
with `normalize_to_enum`): exact match, then keyword-family matching,
then substring containment, then the fallback, and the first domain
entry when no fallback is given — each stage falling through to the
next when it produces nothing. -/
def normalize_chain_claimed (value_raw : String) (allowed : List String)
    (fallback : Option String) : String :=
  if allowed.isEmpty then value_raw
  else
    let v := pyLower (norm_str value_raw)
    let allowed_l := allowed.map pyLower
    match enum_exact_stage allowed allowed_l v with
    | some r => r
    | none =>
      match enum_family_stage allowed allowed_l v with
      | some r => r
      | none =>
        match enum_substring_stage allowed allowed_l v with
        | some r => r
        | none =>
          match fallback with
          | some f => f
          | none => allowed.getD 0 ""

/-- The amended chain: a keyword-family hit commits immediately to the
family's domain entry or, when the family maps to nothing in the
domain, to the fallback (or first domain entry) — skipping the
substring stage; the terminal fallback is used only when it names a
domain value. -/
def normalize_chain_amended (value_raw : String) (allowed : List String)
    (fallback : Option String) : String :=
  if allowed.isEmpty then value_raw
  else
    let v := pyLower (norm_str value_raw)
    let allowed_l := allowed.map pyLower
    match enum_exact_stage allowed allowed_l v with
    | some r => r
    | none =>
      if ["crit", "critical", "majeur", "major", "high", "Ã©lev", "eleve",
          "severe", "sÃ©vÃ¨re"].any (fun k => pyContains v k) then
        pyOrStr (enumPick allowed allowed_l ["critical", "high", "majeur", "major"])
          (pyOrStr fallback (allowed.getD 0 ""))
      else if ["moy", "medium", "moderate", "modÃ©rÃ©", "modere",
          "interm"].any (fun k => pyContains v k) then
        pyOrStr (enumPick allowed allowed_l ["medium", "moderate", "moyen"])
          (pyOrStr fallback (allowed.getD 0 ""))
      else if ["faible", "low", "minor", "mineur", "min"].any
          (fun k => pyContains v k) then
        pyOrStr (enumPick allowed allowed_l ["low", "minor", "faible", "mineur"])
          (pyOrStr fallback (allowed.getD 0 ""))
      else
        match enum_substring_stage allowed allowed_l v with
        | some r => r
        | none =>
          match fallback with
          | some f =>
            if f ≠ "" && allowed_l.contains (pyLower f) then
              allowed.getD (allowed_l.indexOf (pyLower f)) ""
            else allowed.getD 0 ""
          | none => allowed.getD 0 ""

/-- C7 counterexample: for domain `["xx", "itique"]` and raw value
`"Critique"`, the code returns `"xx"` (the keyword-family stage fires
on `"crit"`, finds no family target in the domain, and immediately
falls back to the first domain entry), while the claimed chain would
continue to the substring stage and return `"itique"`. -/
theorem c7_normalizer_chain_counterexample :
    normalize_to_enum "Critique" ["xx", "itique"] none = "xx" ∧
    normalize_chain_claimed "Critique" ["xx", "itique"] none = "itique" ∧
    normalize_to_enum "Critique" ["xx", "itique"] none ≠
      normalize_chain_claimed "Critique" ["xx", "itique"] none :=
  ⟨by decide, by decide, by decide⟩

/-- C7 amended: categorical normalization applies exact match first,
then keyword-family matching — where a family hit yields the matching
domain entry if one exists and otherwise the fallback (or first domain
entry) immediately — then substring containment, then the fallback
when it names a domain value, else the first domain entry; in
particular `"Critique"` with domain `["low","medium","high"]` yields
`"high"` without exact equality. -/
theorem c7_normalizer_chain_amended :
    (∀ (raw : String) (allowed : List String) (fallback : Option String),
      normalize_to_enum raw allowed fallback =
        normalize_chain_amended raw allowed fallback) ∧
    normalize_to_enum "Critique" ["low", "medium", "high"] none = "high" := by
  refine ⟨?_, by decide⟩
  intro raw allowed fallback
  unfold normalize_to_enum normalize_chain_amended enum_exact_stage enum_substring_stage
  rcases hA : allowed.isEmpty
  · dsimp only
    rcases hc : (allowed.map pyLower).contains (pyLower (norm_str raw)) <;> rfl
  · rfl

/-- The introspected `questions` columns for the C2 scenario (the
standard MDR schema). -/
def c2Cols : List String :=
  ["id", "referentialId", "processId", "questionKey", "article", "title",
   "questionText", "questionType", "expectedEvidence", "criticality", "risk",
   "interviewFunctions", "applicableProcesses", "economicRole", "displayOrder",
   "createdAt"]

/-- Live replace-mode configuration for the C2 scenario. -/
def c2Cfg : MdrConfig :=
  { dryRun := false, defaultReferentialId := 1, defaultEconomicRole := "all",
    questionsCols := c2Cols, criticalityEnum := none, questiontypeEnum := none,
    processHasCreatedCol := true }

/-- First C2 source row: `{proc:"Process A", clause:"4.1", text:"Do X?"}`. -/
def c2Row1 : MdrRow :=
  { process := "Process A", objectif := "", clause := "4.1", intitule := "",
    qtext := "Do X?", qtype := "", risk := "", evid := "", funcs := "",
    crit := "", rowIndex := 0 }

/-- Second C2 source row: `{proc:"process a", clause:"4.1", text:"Do X?"}`. -/
def c2Row2 : MdrRow := { c2Row1 with process := "process a", rowIndex := 1 }

/-- The C2 replace-mode run against an empty lookup table. -/
def c2Run : MdrState := mdr_run c2Cfg [] 1 [c2Row1, c2Row2]

/-- C2 counterexample: the run inserts two question rows, not one — the
importer has no within-run key deduplication, so the second row is not
treated as a duplicate and `inserted = 1` is false. -/
theorem c2_case_variant_rows_counterexample :
    c2Run.processesCreated = 1 ∧ c2Run.inserted = 2 ∧ ¬(c2Run.inserted = 1) :=
  ⟨by decide, by decide, by decide⟩

set_option maxRecDepth 100000 in
/-- C2 amended: the run creates exactly one lookup entity
("Process A" with id 1, reused case-insensitively by the second row)
but inserts two question rows with counters processesCreated = 1 and
inserted = 2: the importer performs no within-run key deduplication,
and the two identity keys differ anyway because the key hashes the
raw, non-casefolded process name. -/
theorem c2_case_variant_rows_amended :
    c2Run.processesCreated = 1 ∧
    c2Run.writes.filterMap (fun w => match w with
      | MdrWrite.insertProcess n _ => some n
      | _ => none) = ["Process A"] ∧
    c2Run.processMap.lookup "process a" = some 1 ∧
    c2Run.inserted = 2 ∧ c2Run.skipped = 0 ∧
    gen_question_key "4.1" "Process A" "Do X?" ≠
      gen_question_key "4.1" "process a" "Do X?" :=
  ⟨by decide, by decide, by decide, by decide, by decide, by decide⟩

/-- v2 configuration for the C4 scenario: all reconciliation columns
present. -/
def c4Cfg : V2Config :=
  { dryRun := false, referentialId := 2, hasCode := true, hasProcessId := true,
    hasArticle := true, hasQuestionText := true, hasRisk := true,
    hasRisks := false, hasExpected := false }

/-- First stored question matching the C4 fallback attributes. -/
def c4Q1 : QRow :=
  { id := 10, questionKey := "k1", referentialId := 2, code := none,
    processId := 1, article := "4.1", questionText := "Do X?", risk := none,
    risks := none, expectedEvidence := none }

/-- Second stored question matching the same fallback attributes. -/
def c4Q2 : QRow := { c4Q1 with id := 11, questionKey := "k2" }

/-- v2 state for the C4 scenario: two rows match the fallback
attribute combination. -/
def c4St : V2State :=
  { questions := [c4Q1, c4Q2], updated := 0, updated_by_code := 0,
    updated_by_fallback := 0, skipped := 0, missing_process := 0,
    not_found := 0, writes := [] }

/-- The C4 source row (no code cell, so the primary strategy is not
attempted). -/
def c4Row : SheetRow :=
  [("Processus concerné", some "Production"), ("Clause", some "4.1"),
   ("Question d’audit détaillée", some "Do X?"), ("Risque", some "R1")]

/-- The C4 row processed against the two-match store. -/
def c4Res : V2State := v2_process_row c4Cfg [("production", 1)] c4St c4Row

/-- C4 counterexample: two existing rows match the fallback attribute
combination, yet the engine still issues an UPDATE (on the first
retrieved row, id 10) and counts UPDATED_BY_FALLBACK — the claim's
"only if exactly one existing row matches" is false. -/
theorem c4_fallback_counterexample :
    (c4St.questions.countP fun q : QRow =>
      q.referentialId == 2 && q.processId == 1 && q.article == "4.1" &&
      q.questionText == normalize_question_text "Do X?") = 2 ∧
    c4Res.updated_by_fallback = 1 ∧
    c4Res.writes = [V2Write.updateById [Val.str "R1"] 10] :=
  ⟨by decide, by decide, by decide⟩

/-- C4 amended: when the fallback lookup is attempted, an UPDATE on
the first retrieved row (`SELECT … LIMIT 1`, nonzero id) is issued
whenever at least one row matches the attribute combination; the
record then counts as UPDATED_BY_FALLBACK when that UPDATE actually
changes the row, and as NOT_FOUND either when no row matches at all or
when the UPDATE changes no row (the driver reports changed rows, so a
matched-but-unchanged UPDATE yields `rowcount = 0`). -/
theorem c4_fallback_first_match_updated (cfg : V2Config) (st : V2State)
    (params_set : List Val) (risk expected : Option String) (pid : Int)
    (article qt : String)
    (h1 : cfg.hasProcessId = true) (h2 : cfg.hasArticle = true)
    (h3 : cfg.hasQuestionText = true) :
    (st.questions.find? (fun q =>
        q.referentialId == cfg.referentialId && q.processId == pid &&
        q.article == article && q.questionText == qt) = none →
      v2_fallback cfg st params_set risk expected pid article qt =
        { st with not_found := st.not_found + 1 }) ∧
    (∀ qrow : QRow, st.questions.find? (fun q =>
        q.referentialId == cfg.referentialId && q.processId == pid &&
        q.article == article && q.questionText == qt) = some qrow →
      ¬(qrow.id = 0) →
      (v2_fallback cfg st params_set risk expected pid article qt).writes =
        st.writes ++ [V2Write.updateById params_set qrow.id] ∧
      (apply_set_parts cfg.hasRisk cfg.hasRisks cfg.hasExpected risk expected
          qrow ≠ qrow →
        (v2_fallback cfg st params_set risk expected pid article
            qt).updated_by_fallback = st.updated_by_fallback + 1 ∧
        (v2_fallback cfg st params_set risk expected pid article qt).not_found =
          st.not_found) ∧
      ((∀ q ∈ st.questions, q.id = qrow.id →
          apply_set_parts cfg.hasRisk cfg.hasRisks cfg.hasExpected risk
            expected q = q) →
        (v2_fallback cfg st params_set risk expected pid article qt).not_found =
          st.not_found + 1 ∧
        (v2_fallback cfg st params_set risk expected pid article
            qt).updated_by_fallback = st.updated_by_fallback)) := by
  constructor
  · intro hfind
    unfold v2_fallback
    simp [h1, h2, h3, hfind]
  · intro qrow hfind hid
    have hmem : qrow ∈ st.questions := List.mem_of_find?_eq_some hfind
    unfold v2_fallback
    simp only [h1, h2, h3, Bool.and_self, if_true, hfind]
    rw [if_neg (by simpa using hid)]
    refine ⟨?_, ?_, ?_⟩
    · split <;> rfl
    · intro hch
      have hcnt : 0 < st.questions.countP fun q : QRow =>
          q.id == qrow.id && set_changes cfg.hasRisk cfg.hasRisks
            cfg.hasExpected risk expected q := by
        rw [List.countP_pos_iff]
        exact ⟨qrow, hmem, by simp [set_changes, hch]⟩
      rw [if_pos hcnt]
      exact ⟨rfl, rfl⟩
    · intro hunch
      have hcnt : (st.questions.countP fun q : QRow =>
          q.id == qrow.id && set_changes cfg.hasRisk cfg.hasRisks
            cfg.hasExpected risk expected q) = 0 := by
        rw [List.countP_eq_zero]
        intro q hq
        by_cases hqid : q.id = qrow.id
        · simp [set_changes, hunch q hq hqid]
        · simp [hqid]
      rw [if_neg (by rw [hcnt]; decide)]
      exact ⟨rfl, rfl⟩

/-- v2 state holding a single matching row whose risk the patch would
change (`none` → `"R1"`). -/
def c4StOne : V2State := { c4St with questions := [c4Q1] }

/-- The same row with the risk already at the patched value, so the
UPDATE changes nothing. -/
def c4Q1Same : QRow := { c4Q1 with risk := some "R1" }

/-- v2 state holding only the already-patched row. -/
def c4StSame : V2State := { c4St with questions := [c4Q1Same] }

/-- C4 witness: a changing fallback UPDATE counts UPDATED_BY_FALLBACK;
the same UPDATE against an already-patched row changes nothing and
counts NOT_FOUND; an empty store counts NOT_FOUND with no write. -/
theorem c4_fallback_first_match_updated_witness :
    c4Cfg.hasProcessId = true ∧
    apply_set_parts c4Cfg.hasRisk c4Cfg.hasRisks c4Cfg.hasExpected
      (some "R1") none c4Q1 ≠ c4Q1 ∧
    ((v2_fallback c4Cfg c4StOne [Val.str "R1"] (some "R1") none 1 "4.1"
        "Do X?").updated_by_fallback = c4StOne.updated_by_fallback + 1 ∧
     (v2_fallback c4Cfg c4StOne [Val.str "R1"] (some "R1") none 1 "4.1"
        "Do X?").not_found = c4StOne.not_found) ∧
    (∀ q ∈ c4StSame.questions, q.id = c4Q1Same.id →
      apply_set_parts c4Cfg.hasRisk c4Cfg.hasRisks c4Cfg.hasExpected
        (some "R1") none q = q) ∧
    ((v2_fallback c4Cfg c4StSame [Val.str "R1"] (some "R1") none 1 "4.1"
        "Do X?").not_found = c4StSame.not_found + 1 ∧
     (v2_fallback c4Cfg c4StSame [Val.str "R1"] (some "R1") none 1 "4.1"
        "Do X?").updated_by_fallback = c4StSame.updated_by_fallback) ∧
    v2_fallback c4Cfg { c4St with questions := [] } [Val.str "R1"]
        (some "R1") none 1 "4.1" "Do X?" =
      { { c4St with questions := [] } with
          not_found := { c4St with questions := [] }.not_found + 1 } :=
  ⟨by decide, by decide,
   ((c4_fallback_first_match_updated c4Cfg c4StOne [Val.str "R1"] (some "R1")
     none 1 "4.1" "Do X?" (by decide) (by decide) (by decide)).2 c4Q1
     (by decide) (by decide)).2.1 (by decide),
   by decide,
   ((c4_fallback_first_match_updated c4Cfg c4StSame [Val.str "R1"] (some "R1")
     none 1 "4.1" "Do X?" (by decide) (by decide) (by decide)).2 c4Q1Same
     (by decide) (by decide)).2.2 (by decide),
   (c4_fallback_first_match_updated c4Cfg { c4St with questions := [] }
     [Val.str "R1"] (some "R1") none 1 "4.1" "Do X?" (by decide) (by decide)
     (by decide)).1 (by decide)⟩

/-- In dry-run mode `get_or_create_process_id` issues no write. -/
theorem goc_dry_writes (cfg : MdrConfig) (st : MdrState) (p : String)
    (h : cfg.dryRun = true) :
    ((get_or_create_process_id cfg st p).2).writes = st.writes := by
  unfold get_or_create_process_id
  dsimp only
  split
  · rfl
  · rw [if_pos h]

/-- In dry-run mode parameter building issues no write. -/
theorem bp_dry_writes (cfg : MdrConfig) (st : MdrState) (r : MdrRow)
    (h : cfg.dryRun = true) :
    ((mdr_build_params cfg st r).2).writes = st.writes := by
  unfold mdr_build_params
  dsimp only
  split
  · exact goc_dry_writes cfg st r.process h
  · rfl

/-- In dry-run mode one MDR loop iteration issues no write. -/
theorem mdr_row_dry_writes (cfg : MdrConfig) (st : MdrState) (r : MdrRow)
    (h : cfg.dryRun = true) :
    (mdr_process_row cfg st r).writes = st.writes := by
  unfold mdr_process_row
  dsimp only
  split
  · rfl
  · rcases hbp : mdr_build_params cfg st
        (if norm_str r.process = "" then { r with process := "Non dÃ©fini" }
         else r) with ⟨params, st2⟩
    have hw := bp_dry_writes cfg st
      (if norm_str r.process = "" then { r with process := "Non dÃ©fini" } else r) h
    rw [hbp] at hw
    dsimp only at hw
    simp [h, hw]

/-- In dry-run mode the MDR loop fold issues no write. -/
theorem mdr_fold_writes (cfg : MdrConfig) (h : cfg.dryRun = true) :
    ∀ (rows : List MdrRow) (st : MdrState),
      (rows.foldl (mdr_process_row cfg) st).writes = st.writes := by
  intro rows
  induction rows with
  | nil => intro st; rfl
  | cons r t ih =>
    intro st
    rw [List.foldl_cons, ih]
    exact mdr_row_dry_writes cfg st r h

/-- A dry MDR run issues no write at all. -/
theorem mdr_run_dry_writes (cfg : MdrConfig) (pt : List (Int × String))
    (nid : Int) (rows : List MdrRow) (h : cfg.dryRun = true) :
    (mdr_run cfg pt nid rows).writes = [] := by
  unfold mdr_run
  dsimp only
  rw [mdr_fold_writes cfg h]
  simp [h]

theorem epi_dry_writes (cfg : IsoConfig) (st : IsoState) (p : String)
    (h : cfg.dryRun = true) :
    ((ensure_process_id cfg st p).2).writes = st.writes := by
  unfold ensure_process_id
  dsimp only
  split
  · rfl
  · rw [if_pos h]

theorem iso_row_dry_writes (cfg : IsoConfig) (st : IsoState) (row : SheetRow)
    (h : cfg.dryRun = true) :
    (iso_process_row cfg st row).writes = st.writes := by
  unfold iso_process_row
  dsimp only
  split
  · rfl
  · rcases hep : ensure_process_id cfg st
        ((resolve_sheet_value row ["Processus concerné", "Processus concerne"]).getD "")
        with ⟨pid, st2⟩
    have hw := epi_dry_writes cfg st
      ((resolve_sheet_value row ["Processus concerné", "Processus concerne"]).getD "") h
    rw [hep] at hw
    dsimp only at hw
    simp [h, hw]

theorem iso_fold_writes (cfg : IsoConfig) (h : cfg.dryRun = true) :
    ∀ (rows : List SheetRow) (st : IsoState),
      (rows.foldl (iso_process_row cfg) st).writes = st.writes := by
  intro rows
  induction rows with
  | nil => intro st; rfl
  | cons r t ih =>
    intro st
    rw [List.foldl_cons, ih]
    exact iso_row_dry_writes cfg st r h

theorem ensure_ref_dry (cfg : IsoConfig) (store : IsoStore) (ws : List IsoWrite)
    (h : cfg.dryRun = true) (hok : ensure_referential_exists cfg store = Except.ok ws) :
    ws = [] := by
  unfold ensure_referential_exists at hok
  repeat' split at hok
  all_goals simp_all

theorem iso_run_dry_writes (cfg : IsoConfig) (store : IsoStore)
    (rows : List SheetRow) (st : IsoState) (h : cfg.dryRun = true)
    (hok : iso_run cfg store rows = Except.ok st) :
    st.writes = [] := by
  unfold iso_run at hok
  rcases her : ensure_referential_exists cfg store with e | ws
  · rw [her] at hok; cases hok
  · rw [her] at hok
    dsimp only at hok
    rw [if_pos h] at hok
    cases hok
    rw [iso_fold_writes cfg h]
    exact ensure_ref_dry cfg store ws h her

theorem patch_row_dry (cfg : PatchConfig) (pm : List (String × Int))
    (st : PatchState) (row : SheetRow) (h : cfg.dryRun = true) :
    (patch_process_row cfg pm st row).writes = st.writes := by
  unfold patch_process_row
  dsimp only
  repeat' split
  all_goals first | rfl | simp_all

theorem patch_fold_writes (cfg : PatchConfig) (pm : List (String × Int))
    (h : cfg.dryRun = true) :
    ∀ (rows : List SheetRow) (st : PatchState),
      (rows.foldl (patch_process_row cfg pm) st).writes = st.writes := by
  intro rows
  induction rows with
  | nil => intro st; rfl
  | cons r t ih =>
    intro st
    rw [List.foldl_cons, ih]
    exact patch_row_dry cfg pm st r h

theorem patch_run_dry_writes (cfg : PatchConfig) (procs : List (Int × String))
    (qs : List QRow) (rows : List SheetRow) (st : PatchState)
    (h : cfg.dryRun = true) (hok : patch_run cfg procs qs rows = Except.ok st) :
    st.writes = [] := by
  unfold patch_run at hok
  split at hok
  · cases hok
  · cases hok
    rw [patch_fold_writes cfg (patch_load_process_map procs) h]

theorem lookup_isSome_congr :
    ∀ (m₁ m₂ : List (String × Int)) (k : String),
      m₁.map Prod.fst = m₂.map Prod.fst →
      (m₁.lookup k).isSome = (m₂.lookup k).isSome := by
  intro m₁
  induction m₁ with
  | nil =>
    intro m₂ k h
    have : m₂ = [] := by
      cases m₂
      · rfl
      · simp at h
    subst this
    rfl
  | cons a t ih =>
    intro m₂ k h
    rcases m₂ with _ | ⟨b, t₂⟩
    · simp at h
    · simp only [List.map_cons, List.cons.injEq] at h
      obtain ⟨hab, ht⟩ := h
      simp only [List.lookup, hab]
      split
      · rfl
      · exact ih t₂ k ht

/-- Counter-relevant simulation between a live and a dry MDR state. -/
def MdrCounterSim (s₁ s₂ : MdrState) : Prop :=
  s₁.processMap.map Prod.fst = s₂.processMap.map Prod.fst ∧
  s₁.inserted = s₂.inserted ∧ s₁.skipped = s₂.skipped ∧
  s₁.processesCreated = s₂.processesCreated

theorem goc_sim (cfg : MdrConfig) (p : String) (s₁ s₂ : MdrState)
    (hsim : MdrCounterSim s₁ s₂) :
    MdrCounterSim (get_or_create_process_id { cfg with dryRun := false } s₁ p).2
      (get_or_create_process_id { cfg with dryRun := true } s₂ p).2 := by
  obtain ⟨hk, hi, hs, hp⟩ := hsim
  unfold get_or_create_process_id
  dsimp only
  have hiso := lookup_isSome_congr s₁.processMap s₂.processMap
    (pyLower (if norm_str p = "" then "Non dÃ©fini" else norm_str p)) hk
  rcases hl₁ : s₁.processMap.lookup
      (pyLower (if norm_str p = "" then "Non dÃ©fini" else norm_str p)) with _ | pid₁ <;>
    rcases hl₂ : s₂.processMap.lookup
      (pyLower (if norm_str p = "" then "Non dÃ©fini" else norm_str p)) with _ | pid₂
  · exact ⟨by simp [hk], hi, hs, by simp [hp]⟩
  · rw [hl₁, hl₂] at hiso; simp at hiso
  · rw [hl₁, hl₂] at hiso; simp at hiso
  · exact ⟨hk, hi, hs, hp⟩

theorem bp_sim (cfg : MdrConfig) (r : MdrRow) (s₁ s₂ : MdrState)
    (hsim : MdrCounterSim s₁ s₂) :
    MdrCounterSim (mdr_build_params { cfg with dryRun := false } s₁ r).2
      (mdr_build_params { cfg with dryRun := true } s₂ r).2 := by
  unfold mdr_build_params
  dsimp only
  split
  · have := goc_sim cfg r.process s₁ s₂ hsim
    rcases hg₁ : get_or_create_process_id { cfg with dryRun := false } s₁ r.process
      with ⟨pid₁, st₁⟩
    rcases hg₂ : get_or_create_process_id { cfg with dryRun := true } s₂ r.process
      with ⟨pid₂, st₂⟩
    rw [hg₁, hg₂] at this
    exact this
  · exact hsim

theorem row_sim (cfg : MdrConfig) (r : MdrRow) (s₁ s₂ : MdrState)
    (hsim : MdrCounterSim s₁ s₂) :
    MdrCounterSim (mdr_process_row { cfg with dryRun := false } s₁ r)
      (mdr_process_row { cfg with dryRun := true } s₂ r) := by
  obtain ⟨hk, hi, hs, hp⟩ := hsim
  unfold mdr_process_row
  dsimp only
  split
  · exact ⟨hk, hi, by simp [hs], hp⟩
  · have hb := bp_sim cfg
      (if norm_str r.process = "" then { r with process := "Non dÃ©fini" } else r)
      s₁ s₂ ⟨hk, hi, hs, hp⟩
    rcases hb₁ : mdr_build_params { cfg with dryRun := false } s₁
        (if norm_str r.process = "" then { r with process := "Non dÃ©fini" } else r)
      with ⟨params₁, st₁⟩
    rcases hb₂ : mdr_build_params { cfg with dryRun := true } s₂
        (if norm_str r.process = "" then { r with process := "Non dÃ©fini" } else r)
      with ⟨params₂, st₂⟩
    rw [hb₁, hb₂] at hb
    obtain ⟨hk2, hi2, hs2, hp2⟩ := hb
    dsimp only at hk2 hi2 hs2 hp2
    exact ⟨hk2, by simp [hi2], hs2, hp2⟩

theorem fold_sim (cfg : MdrConfig) :
    ∀ (rows : List MdrRow) (s₁ s₂ : MdrState), MdrCounterSim s₁ s₂ →
      MdrCounterSim (rows.foldl (mdr_process_row { cfg with dryRun := false }) s₁)
        (rows.foldl (mdr_process_row { cfg with dryRun := true }) s₂) := by
  intro rows
  induction rows with
  | nil => intro s₁ s₂ h; exact h
  | cons r t ih =>
    intro s₁ s₂ h
    rw [List.foldl_cons, List.foldl_cons]
    exact ih _ _ (row_sim cfg r s₁ s₂ h)

theorem mdr_run_counters_sim (cfg : MdrConfig) (pt : List (Int × String))
    (nid : Int) (rows : List MdrRow) :
    MdrCounterSim (mdr_run { cfg with dryRun := false } pt nid rows)
      (mdr_run { cfg with dryRun := true } pt nid rows) := by
  unfold mdr_run
  dsimp only
  exact fold_sim cfg rows _ _ ⟨rfl, rfl, rfl, rfl⟩

/-- Counter-relevant simulation between a live and a dry ISO state. -/
def IsoCounterSim (s₁ s₂ : IsoState) : Prop :=
  s₁.processMap.map Prod.fst = s₂.processMap.map Prod.fst ∧
  s₁.inserted = s₂.inserted ∧ s₁.skipped = s₂.skipped

theorem epi_sim (cfg : IsoConfig) (p : String) (s₁ s₂ : IsoState)
    (hsim : IsoCounterSim s₁ s₂) :
    IsoCounterSim (ensure_process_id { cfg with dryRun := false } s₁ p).2
      (ensure_process_id { cfg with dryRun := true } s₂ p).2 := by
  obtain ⟨hk, hi, hs⟩ := hsim
  unfold ensure_process_id
  dsimp only
  have hiso := lookup_isSome_congr s₁.processMap s₂.processMap
    (pyLower (pyStrip p)) hk
  rcases hl₁ : s₁.processMap.lookup (pyLower (pyStrip p)) with _ | pid₁ <;>
    rcases hl₂ : s₂.processMap.lookup (pyLower (pyStrip p)) with _ | pid₂
  · exact ⟨by simp [hk], hi, hs⟩
  · rw [hl₁, hl₂] at hiso; simp at hiso
  · rw [hl₁, hl₂] at hiso; simp at hiso
  · exact ⟨hk, hi, hs⟩

theorem iso_row_sim (cfg : IsoConfig) (row : SheetRow) (s₁ s₂ : IsoState)
    (hsim : IsoCounterSim s₁ s₂) :
    IsoCounterSim (iso_process_row { cfg with dryRun := false } s₁ row)
      (iso_process_row { cfg with dryRun := true } s₂ row) := by
  obtain ⟨hk, hi, hs⟩ := hsim
  unfold iso_process_row
  dsimp only
  split
  · exact ⟨hk, hi, by simp [hs]⟩
  · have he := epi_sim cfg
      ((resolve_sheet_value row ["Processus concerné", "Processus concerne"]).getD "")
      s₁ s₂ ⟨hk, hi, hs⟩
    rcases he₁ : ensure_process_id { cfg with dryRun := false } s₁
        ((resolve_sheet_value row ["Processus concerné", "Processus concerne"]).getD "")
      with ⟨pid₁, st₁⟩
    rcases he₂ : ensure_process_id { cfg with dryRun := true } s₂
        ((resolve_sheet_value row ["Processus concerné", "Processus concerne"]).getD "")
      with ⟨pid₂, st₂⟩
    rw [he₁, he₂] at he
    obtain ⟨hk2, hi2, hs2⟩ := he
    dsimp only at hk2 hi2 hs2
    exact ⟨hk2, by simp [hi2], hs2⟩

theorem iso_fold_sim (cfg : IsoConfig) :
    ∀ (rows : List SheetRow) (s₁ s₂ : IsoState), IsoCounterSim s₁ s₂ →
      IsoCounterSim (rows.foldl (iso_process_row { cfg with dryRun := false }) s₁)
        (rows.foldl (iso_process_row { cfg with dryRun := true }) s₂) := by
  intro rows
  induction rows with
  | nil => intro s₁ s₂ h; exact h
  | cons r t ih =>
    intro s₁ s₂ h
    rw [List.foldl_cons, List.foldl_cons]
    exact ih _ _ (iso_row_sim cfg r s₁ s₂ h)

theorem iso_run_counters_sim (cfg : IsoConfig) (store : IsoStore)
    (rows : List SheetRow) (stL stD : IsoState)
    (hL : iso_run { cfg with dryRun := false } store rows = Except.ok stL)
    (hD : iso_run { cfg with dryRun := true } store rows = Except.ok stD) :
    stD.inserted = stL.inserted ∧ stD.skipped = stL.skipped := by
  unfold iso_run at hL hD
  rcases hr₁ : ensure_referential_exists { cfg with dryRun := false } store with e₁ | ws₁ <;>
    rw [hr₁] at hL
  · cases hL
  rcases hr₂ : ensure_referential_exists { cfg with dryRun := true } store with e₂ | ws₂ <;>
    rw [hr₂] at hD
  · cases hD
  dsimp only at hL hD
  cases hL
  cases hD
  have hsim := iso_fold_sim cfg rows
    { processMap := (store.processes.map fun p => (pyLower (pyStrip p.2), p.1)).reverse,
      processNextId := store.processNextId, orders := [], inserted := 0, skipped := 0,
      writes := if false = true then ws₁ else
        ws₁ ++ [IsoWrite.purgeQuestions cfg.referentialId] }
    { processMap := (store.processes.map fun p => (pyLower (pyStrip p.2), p.1)).reverse,
      processNextId := store.processNextId, orders := [], inserted := 0, skipped := 0,
      writes := if true = true then ws₂ else
        ws₂ ++ [IsoWrite.purgeQuestions cfg.referentialId] }
    ⟨rfl, rfl, rfl⟩
  exact ⟨hsim.2.1.symm, hsim.2.2.symm⟩

/-- Live patch configuration for the C3 scenario. -/
def c3CfgL : PatchConfig :=
  { dryRun := false, referentialId := 2, hasRisk := true, hasRisks := false,
    hasExpected := true }

/-- The same patch configuration with the dry-run flag set. -/
def c3CfgD : PatchConfig := { c3CfgL with dryRun := true }

/-- The C3 source row: resolvable process and question text. -/
def c3Row : SheetRow :=
  [("Processus concerné", some "Production"), ("Clause", some "4.1"),
   ("Question d’audit détaillée", some "Do X?"), ("Risque", some "R1")]

/-- C3 counterexample: against a store holding the process but no
matching question, the dry-run patch reports `updated = 1,
not_found = 0` while the identical live run reports `updated = 0,
not_found = 1` — the dry-run counters are not the counters the live
run would report. -/
theorem c3_dry_run_counterexample :
    c3CfgD = { c3CfgL with dryRun := true } ∧
    (patch_run c3CfgD [(1, "Production")] [] [c3Row]).toOption.map
      (fun s => (s.updated, s.not_found)) = some (1, 0) ∧
    (patch_run c3CfgL [(1, "Production")] [] [c3Row]).toOption.map
      (fun s => (s.updated, s.not_found)) = some (0, 1) :=
  ⟨by decide, by decide, by decide⟩

/-- C3 amended: a dry run issues no store write in any of the three
scripts, and the two importers' counters are accurate previews of the
live run; but the patch script's `updated`/`not_found` counters are
not — dry-run counts every candidate row as updated, whereas the live
run may report `not_found` instead. -/
theorem c3_dry_run_no_writes_amended :
    (∀ (cfg : MdrConfig) (pt : List (Int × String)) (nid : Int)
        (rows : List MdrRow),
      cfg.dryRun = true → (mdr_run cfg pt nid rows).writes = []) ∧
    (∀ (cfg : IsoConfig) (store : IsoStore) (rows : List SheetRow)
        (st : IsoState),
      cfg.dryRun = true → iso_run cfg store rows = Except.ok st →
      st.writes = []) ∧
    (∀ (cfg : PatchConfig) (procs : List (Int × String)) (qs : List QRow)
        (rows : List SheetRow) (st : PatchState),
      cfg.dryRun = true → patch_run cfg procs qs rows = Except.ok st →
      st.writes = []) ∧
    (∀ (cfg : MdrConfig) (pt : List (Int × String)) (nid : Int)
        (rows : List MdrRow),
      (mdr_run { cfg with dryRun := true } pt nid rows).inserted =
        (mdr_run { cfg with dryRun := false } pt nid rows).inserted ∧
      (mdr_run { cfg with dryRun := true } pt nid rows).skipped =
        (mdr_run { cfg with dryRun := false } pt nid rows).skipped ∧
      (mdr_run { cfg with dryRun := true } pt nid rows).processesCreated =
        (mdr_run { cfg with dryRun := false } pt nid rows).processesCreated) ∧
    (∀ (cfg : IsoConfig) (store : IsoStore) (rows : List SheetRow)
        (stL stD : IsoState),
      iso_run { cfg with dryRun := false } store rows = Except.ok stL →
      iso_run { cfg with dryRun := true } store rows = Except.ok stD →
      stD.inserted = stL.inserted ∧ stD.skipped = stL.skipped) := by
  refine ⟨mdr_run_dry_writes, iso_run_dry_writes, ?_, ?_, iso_run_counters_sim⟩
  · intro cfg procs qs rows st h hok
    exact patch_run_dry_writes cfg procs qs rows st h hok
  · intro cfg pt nid rows
    have h := mdr_run_counters_sim cfg pt nid rows
    exact ⟨h.2.1.symm, h.2.2.1.symm, h.2.2.2.symm⟩

/-- ISO store fixture for the C3 witness: the referential already
exists, so both modes pass the pre-flight step. -/
def c3IsoStore : IsoStore :=
  { refTableExists := true, referentialIds := [2], refCols := ["id"],
    processes := [], processNextId := 1 }

/-- ISO configuration fixture (dry) for the C3 witness. -/
def c3IsoCfgD : IsoConfig :=
  { dryRun := true, referentialId := 2, cols := c5IsoCols,
    economicRoleIsNullable := none, processHasSlug := false }

/-- The state a dry ISO run over an empty sheet ends in. -/
def c3IsoResD : IsoState :=
  { processMap := [], processNextId := 1, orders := [], inserted := 0,
    skipped := 0, writes := [] }

/-- The state the matching live ISO run over an empty sheet ends in. -/
def c3IsoResL : IsoState :=
  { c3IsoResD with writes := [IsoWrite.purgeQuestions 2] }

/-- MDR dry configuration fixture for the C3 witness. -/
def c3MdrCfgD : MdrConfig :=
  { dryRun := true, defaultReferentialId := 1, defaultEconomicRole := "all",
    questionsCols := c2Cols, criticalityEnum := none, questiontypeEnum := none,
    processHasCreatedCol := true }

/-- The state the dry patch run of the C3 witness ends in. -/
def c3PatchResD : PatchState :=
  { questions := [], updated := 1, skipped := 0, missing_process := 0,
    not_found := 0, writes := [] }

/-- C3 witness: concrete dry runs of the three scripts issue no write,
and the importer counters match their live runs. -/
theorem c3_dry_run_no_writes_amended_witness :
    c3MdrCfgD.dryRun = true ∧
    (mdr_run c3MdrCfgD [] 1 [c2Row1, c2Row2]).writes = [] ∧
    iso_run { c3IsoCfgD with dryRun := true } c3IsoStore [] =
      Except.ok c3IsoResD ∧
    c3IsoResD.writes = [] ∧
    patch_run c3CfgD [(1, "Production")] [] [c3Row] = Except.ok c3PatchResD ∧
    c3PatchResD.writes = [] ∧
    (iso_run { c3IsoCfgD with dryRun := false } c3IsoStore [] =
      Except.ok c3IsoResL ∧
     c3IsoResD.inserted = c3IsoResL.inserted ∧
     c3IsoResD.skipped = c3IsoResL.skipped) :=
  ⟨by decide,
   c3_dry_run_no_writes_amended.1 c3MdrCfgD [] 1 [c2Row1, c2Row2] (by decide),
   by rfl,
   c3_dry_run_no_writes_amended.2.1 { c3IsoCfgD with dryRun := true }
     c3IsoStore [] c3IsoResD (by decide) (by rfl),
   by rfl,
   c3_dry_run_no_writes_amended.2.2.1 c3CfgD [(1, "Production")] [] [c3Row]
     c3PatchResD (by decide) (by rfl),
   ⟨by rfl,
    c3_dry_run_no_writes_amended.2.2.2.2 c3IsoCfgD c3IsoStore [] c3IsoResL
      c3IsoResD (by rfl) (by rfl)⟩⟩

end QARA
